import Mathlib

/-!
Verification development for the pyensight remote-object proxy and
event-notification subsystem.  The Python sources embedded here are
src/ansys/pyensight/session.py and src/ansys/pyensight/ensight_grpc.py.
Strings are modelled as lists of characters and the Python string
operations used by the code (str.find, slicing, int(), str.replace,
str.startswith, str.strip) are given executable models below.
-/

/-- Conversion from Lean string literals to the character-list model. -/
def S (s : String) : List Char := s.toList

/-- Python character-list strings. -/
abbrev Str := List Char

/-- Tests whether the pattern p occurs at the beginning of s
(model of str.startswith). -/
def begins : Str → Str → Bool
  | _, [] => true
  | [], _ :: _ => false
  | c :: s, d :: p => c == d && begins s p

/-- Index of the leftmost occurrence of pattern p in s, if any
(model of str.find, with none in place of the -1 sentinel). -/
def pyFindAux : Str → Str → Option Nat
  | [], p => if begins [] p then some 0 else none
  | c :: t, p => if begins (c :: t) p then some 0 else (pyFindAux t p).map (· + 1)

/-- Model of str.find returning the -1 sentinel as Python does. -/
def pyFind (s p : Str) : Int :=
  match pyFindAux s p with
  | some i => (i : Int)
  | none => -1

/-- Model of the slice s[a:b] for non-negative bounds. -/
def pySlice (s : Str) (a b : Nat) : Str := (s.drop a).take (b - a)

/-- Model of the slice s[:i] for i of either sign: a negative index counts
from the end of the string, as in Python. -/
def pySliceTo (s : Str) (i : Int) : Str :=
  if i < 0 then s.take (s.length - (-i).toNat) else s.take i.toNat

/-- Whitespace test used by str.strip (the characters arising here are
plain spaces). -/
def isSpaceChar (c : Char) : Bool :=
  c == ' ' || c == '\t' || c == '\n' || c == '\r'

/-- Model of str.strip: remove leading and trailing whitespace. -/
def stripStr (s : Str) : Str :=
  ((s.dropWhile isSpaceChar).reverse.dropWhile isSpaceChar).reverse

/-- Decimal digit test. -/
def isDigitChar (c : Char) : Bool := 48 ≤ c.toNat && c.toNat ≤ 57

/-- All characters are decimal digits. -/
def allDigits (s : Str) : Bool := s.all isDigitChar

/-- Numeric value of a decimal digit character. -/
def digitVal (c : Char) : Nat := c.toNat - 48

/-- Value of a digit string, most significant digit first. -/
def digitsToNat (s : Str) : Nat := s.foldl (fun a c => a * 10 + digitVal c) 0

/-- Model of the Python int() constructor on strings: strip whitespace,
accept an optional sign followed by a nonempty run of decimal digits, and
fail (ValueError, modelled as none) on anything else.  Digit-grouping
underscores are not modelled; no input arising here contains them. -/
def pyInt (s : Str) : Option Int :=
  match stripStr s with
  | [] => none
  | c :: ds =>
    if c = '+' then (if !ds.isEmpty && allDigits ds then some (digitsToNat ds) else none)
    else if c = '-' then (if !ds.isEmpty && allDigits ds then some (-(digitsToNat ds : Int)) else none)
    else if allDigits (c :: ds) then some (digitsToNat (c :: ds)) else none

/-- Decimal digit character for a value below ten. -/
def digitChar (d : Nat) : Char := Char.ofNat (48 + d)

/-- Decimal rendering of a natural number; the fuel argument bounds the
number of digits and is always supplied large enough. -/
def natToStrAux : Nat → Nat → Str
  | 0, _ => []
  | fuel + 1, n => if n < 10 then [digitChar n] else natToStrAux fuel (n / 10) ++ [digitChar (n % 10)]

/-- Decimal rendering of a natural number (model of Python str on int). -/
def natToStr (n : Nat) : Str := natToStrAux (n + 1) n

/-- Decimal rendering of an integer (model of Python str on int). -/
def intToStr (i : Int) : Str :=
  if i < 0 then '-' :: natToStr (-i).toNat else natToStr i.toNat

/-- Replacement of every occurrence of a nonempty pattern, scanning left to
right; the fuel is the length of the subject string, which suffices since
each step consumes at least one character. -/
def pyReplaceAux (p new : Str) : Nat → Str → Str
  | 0, s => s
  | fuel + 1, s =>
    match s with
    | [] => []
    | c :: t =>
      if begins (c :: t) p then new ++ pyReplaceAux p new fuel (t.drop (p.length - 1))
      else c :: pyReplaceAux p new fuel t

/-- Model of str.replace (all occurrences).  The empty-pattern case follows
Python by interleaving the replacement between all characters. -/
def pyReplace (s p new : Str) : Str :=
  if p.isEmpty then new ++ s.flatMap (fun c => c :: new)
  else pyReplaceAux p new s.length s

/-- Lookup in an association list with integer keys, modelling Python dict
access for the subtype tables and the ensobj hash. -/
def dictLookup {α : Type} (d : List (Int × α)) (k : Int) : Option α :=
  match d with
  | [] => none
  | (k0, v) :: t => if k == k0 then some v else dictLookup t k

/-- Insertion with overwrite, modelling Python dict assignment. -/
def dictInsert {α : Type} (d : List (Int × α)) (k : Int) (v : α) : List (Int × α) :=
  match d with
  | [] => [(k, v)]
  | (k0, v0) :: t => if k == k0 then (k, v) :: t else (k0, v0) :: dictInsert t k v

/-- Lookup in an association list with string keys, modelling Python dict
access for the callback registry. -/
def strLookup {α : Type} (d : List (Str × α)) (k : Str) : Option α :=
  match d with
  | [] => none
  | (k0, v) :: t => if k = k0 then some v else strLookup t k

/-- Deletion of a key, modelling the Python del statement on a dict. -/
def strErase {α : Type} (d : List (Str × α)) (k : Str) : List (Str × α) :=
  match d with
  | [] => []
  | (k0, v) :: t => if k = k0 then t else (k0, v) :: strErase t k

/-!
Model of EnSightGRPC (src/ansys/pyensight/ensight_grpc.py).  The gRPC
channel, stub and stream handles are modelled by booleans recording
whether the corresponding attribute is non-None; the event queue is the
list self._events.  Remote behaviour (channel readiness, RunPython
replies) enters as explicit parameters, since the remote engine is an
external collaborator.
-/

/-- State of an EnSightGRPC instance. -/
structure GrpcState where
  channel : Bool
  stub : Bool
  event_stream : Bool
  event_thread : Bool
  events : List Str
deriving DecidableEq

/-- Model of EnSightGRPC.is_connected: true iff self._channel is not None. -/
def is_connected (st : GrpcState) : Bool := st.channel

/-- Model of EnSightGRPC.connect.  The ready flag tells whether
channel_ready_future completed within the timeout; when it did not, the
FutureTimeoutError handler clears self._channel and returns. -/
def connect (st : GrpcState) (ready : Bool) : GrpcState :=
  if is_connected st then st
  else
    let st1 : GrpcState := { st with channel := true }
    if ready then { st1 with stub := true }
    else { st1 with channel := false }

/-- Python exception classes raised by the embedded methods. -/
inductive PyExc where
  | ioError
  | runtimeError
deriving DecidableEq

/-- Outcome of the single RunPython unary call inside EnSightGRPC.command:
either the transport drops (any exception from the stub call) or a reply
arrives carrying the remote error code and value text. -/
inductive RunPyOutcome where
  | drop
  | reply (error : Int) (value : Str)

/-- Model of EnSightGRPC.command.  Returns the outcome (the eval of the
reply text in EXEC_RETURN_PYTHON mode is not modelled and the raw value is
returned), the final state, and the number of RunPython transport calls
issued, which exhibits the absence of any retry.  A missing stub after
connect makes the attribute access on None raise inside the try block, so
it surfaces as the same IOError as a transport drop. -/
def command (st : GrpcState) (ready : Bool) (outcome : RunPyOutcome)
    (do_eval : Bool) : Except PyExc (Option Str) × GrpcState × Nat :=
  let st1 := connect st ready
  if !st1.stub then (.error .ioError, st1, 0)
  else
    match outcome with
    | .drop => (.error .ioError, st1, 1)
    | .reply err value =>
      if err < 0 then (.error .runtimeError, st1, 1)
      else if !do_eval then (.ok none, st1, 1)
      else (.ok (some value), st1, 1)

/-- Model of EnSightGRPC.get_event: pop the head of self._events, with the
IndexError on an empty list converted to None. -/
def get_event (st : GrpcState) : Option Str × GrpcState :=
  match st.events with
  | [] => (none, st)
  | e :: rest => (some e, { st with events := rest })

/-- Model of EnSightGRPC._put_event: append one event record. -/
def put_event (st : GrpcState) (evt : Str) : GrpcState :=
  { st with events := st.events ++ [evt] }

/-- Model of EnSightGRPC.event_stream_enable, as declared in
ensight_grpc.py: it accepts no callback argument.  A missing stub after
connect makes the GetEventStream attribute access on None raise, which is
modelled as none. -/
def event_stream_enable (st : GrpcState) (ready : Bool) : Option GrpcState :=
  if st.event_stream then some st
  else
    let st1 := connect st ready
    if !st1.stub then none
    else some { st1 with event_stream := true, event_thread := true }

/-!
Model of Session (src/ansys/pyensight/session.py): the result marshaller
with its proxy cache, the subtype tables, and the callback registry.
-/

/-- Subtype table for ENS_PART, transcribed from
Session._obj_attr_subtype. -/
def part_lookup_dict : List (Int × Str) :=
  [(0, S "ENS_PART_MODEL"), (1, S "ENS_PART_CLIP"), (2, S "ENS_PART_CONTOUR"),
   (3, S "ENS_PART_DISCRETE_PARTICLE"), (4, S "ENS_PART_FRAME"),
   (5, S "ENS_PART_ISOSURFACE"), (6, S "ENS_PART_PARTICLE_TRACE"),
   (7, S "ENS_PART_PROFILE"), (8, S "ENS_PART_VECTOR_ARROW"),
   (9, S "ENS_PART_ELEVATED_SURFACE"), (10, S "ENS_PART_DEVELOPED_SURFACE"),
   (15, S "ENS_PART_BUILTUP"), (16, S "ENS_PART_TENSOR_GLYPH"),
   (17, S "ENS_PART_FX_VORTEX_CORE"), (18, S "ENS_PART_FX_SHOCK"),
   (19, S "ENS_PART_FX_SEP_ATT"), (20, S "ENS_PART_MAT_INTERFACE"),
   (21, S "ENS_PART_POINT"), (22, S "ENS_PART_AXISYMMETRIC"),
   (24, S "ENS_PART_VOF"), (25, S "ENS_PART_AUX_GEOM"),
   (26, S "ENS_PART_FILTER")]

/-- Subtype table for ENS_ANNOT, transcribed from
Session._obj_attr_subtype. -/
def annot_lookup_dict : List (Int × Str) :=
  [(0, S "ENS_ANNOT_TEXT"), (1, S "ENS_ANNOT_LINE"), (2, S "ENS_ANNOT_LOGO"),
   (3, S "ENS_ANNOT_LGND"), (4, S "ENS_ANNOT_MARKER"), (5, S "ENS_ANNOT_ARROW"),
   (6, S "ENS_ANNOT_DIAL"), (7, S "ENS_ANNOT_GAUGE"), (8, S "ENS_ANNOT_SHAPE")]

/-- Subtype table for ENS_TOOL, transcribed from
Session._obj_attr_subtype. -/
def tool_lookup_dict : List (Int × Str) :=
  [(0, S "ENS_TOOL_CURSOR"), (1, S "ENS_TOOL_LINE"), (2, S "ENS_TOOL_PLANE"),
   (3, S "ENS_TOOL_BOX"), (4, S "ENS_TOOL_CYLINDER"), (5, S "ENS_TOOL_CONE"),
   (6, S "ENS_TOOL_SPHERE"), (7, S "ENS_TOOL_REVOLUTION")]

/-- Marshalling state of a Session: the proxy cache self._ensobj_hash maps
a remote identity to a proxy handle.  Handles are modelled as fresh natural
tokens allocated by a counter, so that handle identity (Python reference
equality) is token equality.  The enum attribute ids PARTTYPE, ANNOTTYPE
and TOOLTYPE are fetched from the remote EnSight at Session construction
and are carried as state; the getattr round trip issued during subtype
resolution is modelled by the oracle function from (objid, attr id) to the
discriminator value the remote side reports. -/
structure SessState where
  hash : List (Int × Nat)
  next : Nat
  parttype : Int
  annottype : Int
  tooltype : Int
  oracle : Int → Int → Int

/-- Model of Session._obj_attr_subtype: for the three polymorphic base
classes return the discriminator attribute id and the subtype table; the
Python (None, None) result is modelled as none. -/
def obj_attr_subtype (st : SessState) (classname : Str) : Option (Int × List (Int × Str)) :=
  if classname = S "ENS_PART" then some (st.parttype, part_lookup_dict)
  else if classname = S "ENS_ANNOT" then some (st.annottype, annot_lookup_dict)
  else if classname = S "ENS_TOOL" then some (st.tooltype, tool_lookup_dict)
  else none

/-- Model of Session.remote_obj. -/
def remote_obj (ensobjid : Int) : Str :=
  S "ensight.objs.wrap_id(" ++ intToStr ensobjid ++ S ")"

/-- Model of Session.obj_instance: cache lookup by remote identity. -/
def obj_instance (st : SessState) (ensobjid : Int) : Option Nat :=
  dictLookup st.hash ensobjid

/-- Model of Session.add_ensobj_instance: record a freshly constructed
proxy handle in the cache under its remote identity. -/
def add_ensobj_instance (st : SessState) (objid : Int) : SessState :=
  { st with hash := dictInsert st.hash objid st.next, next := st.next + 1 }

/-- Model of Session._prune_hash: flush the whole cache once it exceeds
1000000 entries. -/
def prune_hash (st : SessState) : SessState :=
  if st.hash.length > 1000000 then { st with hash := [] } else st

/-- Cache-lookup replacement text generated by Session._convert_ctor. -/
def objInstanceStr (objid : Int) : Str :=
  S "session.obj_instance(" ++ intToStr objid ++ S ")"

/-- Constructor replacement text generated by Session._convert_ctor. -/
def ctorText (classname : Str) (objid : Int) (subclass_info : Str) : Str :=
  S "session.ensight.objs." ++ classname ++ S "(session, " ++ intToStr objid
    ++ subclass_info ++ S ")"

/-- Result of the marker-location and extraction part of one iteration of
the while-loop in Session._convert_ctor: halt mirrors the three break
paths (no CvfObjID marker, no Class marker before it, no cached qualifier
anywhere), fail mirrors the ValueError raised by int() on the identity
slice, and found carries the positions, the tail length that was selected
(11 for cached-no, 12 for cached-yes), the parsed identity and the
extracted class name. -/
inductive ParseOut where
  | halt
  | fail
  | found (start idn tail tail_len : Nat) (objid : Int) (classname : Str)
deriving DecidableEq

/-- Marker location and extraction of one scan step of
Session._convert_ctor, transcribed line by line: find the next CvfObjID
marker, the first Class marker, choose the trailing qualifier by first
searching the whole string for cached-no and only then for cached-yes,
parse the identity from the slice between the CvfObjID marker and the
chosen tail, and cut the class name at the first comma of the slice
between the Class marker and the tail (Python classname[:comma] with the
find sentinel -1 drops the last character when no comma is present). -/
def ctorParse (s : Str) : ParseOut :=
  match pyFindAux s (S "CvfObjID:") with
  | none => .halt
  | some idn =>
    match pyFindAux s (S "Class: ") with
    | none => .halt
    | some start =>
      if start > idn then .halt
      else
        match
          (match pyFindAux s (S ", cached:no") with
           | some t => some (t, 11)
           | none =>
             match pyFindAux s (S ", cached:yes") with
             | some t => some (t, 12)
             | none => none) with
        | none => .halt
        | some (tail, tail_len) =>
          match pyInt (pySlice s (idn + 9) tail) with
          | none => .fail
          | some objid =>
            let classname0 := pySlice s (start + 7) tail
            let comma := pyFind classname0 (S ",")
            .found start idn tail tail_len objid (pySliceTo classname0 comma)

/-- Replacement text, getattr round trip and emitted constructor record
for a fresh (uncached) identity in Session._convert_ctor: consult the
subtype table, and for a polymorphic base class issue one synchronous
getattr round trip (modelled by the oracle) for the discriminator value;
a recognized value selects the concrete subclass name and appends the
attr_id and attr_value arguments, an unrecognized one falls back to the
base class name. -/
def fresh_replace (st : SessState) (classname : Str) (objid : Int) :
    Str × Option (Int × Int) × (Int × Str × Option (Int × Int)) :=
  match obj_attr_subtype st classname with
  | some (attr_id, classname_lookup) =>
    let attr_value := st.oracle objid attr_id
    match dictLookup classname_lookup attr_value with
    | some cname2 =>
      let subclass_info := S ",attr_id=" ++ intToStr attr_id ++ S ", attr_value=" ++ intToStr attr_value
      (ctorText cname2 objid subclass_info, some (objid, attr_id), (objid, cname2, some (attr_id, attr_value)))
    | none =>
      (ctorText classname objid (S ""), some (objid, attr_id), (objid, classname, none))
  | none =>
    (ctorText classname objid (S ""), none, (objid, classname, none))

/-- Outcome of one full iteration of the while-loop in
Session._convert_ctor: halting with the current string, the int()
ValueError, or continuation with the spliced string, the getattr round
trip issued by this step if any (objid and attr id), and the constructor
expression emitted by this step if any (objid, final class name, subtype
info). -/
inductive CtorStep where
  | halt (s : Str)
  | fail
  | cont (s : Str) (trip : Option (Int × Int)) (emit : Option (Int × Str × Option (Int × Int)))

/-- One iteration of the while-loop of Session._convert_ctor: after
extraction, a cached identity is rewritten to the cache-lookup expression
with no round trip, and a fresh one goes through fresh_replace; the block
from the Class marker through the cached qualifier is spliced out and the
replacement inserted. -/
def ctorStep (st : SessState) (s : Str) : CtorStep :=
  match ctorParse s with
  | .halt => .halt s
  | .fail => .fail
  | .found start _ tail tail_len objid classname =>
    let pre := s.take start
    let post := s.drop (tail + tail_len)
    if (dictLookup st.hash objid).isSome then
      .cont (pre ++ objInstanceStr objid ++ post) none none
    else
      let (replace_text, trip, emit) := fresh_replace st classname objid
      .cont (pre ++ replace_text ++ post) trip (some emit)

/-- Result of a whole Session._convert_ctor call: the final rewritten
string together with the getattr round trips issued and the constructor
expressions emitted in scan order, the int() ValueError, or fuel
exhaustion of the embedded while-loop. -/
inductive ConvertResult where
  | ok (s : Str) (trips : List (Int × Int)) (emits : List (Int × Str × Option (Int × Int)))
  | valueError
  | fuelOut
deriving DecidableEq

/-- The while-loop of Session._convert_ctor, with explicit fuel in place
of the while True and accumulators for the round trips and emitted
constructor expressions.  The proxy cache is not modified inside the
loop. -/
def convertLoop (st : SessState) : Nat → Str → List (Int × Int) →
    List (Int × Str × Option (Int × Int)) → ConvertResult
  | 0, _, _, _ => .fuelOut
  | fuel + 1, s, trips, emits =>
    match ctorStep st s with
    | .halt s1 => .ok s1 trips emits
    | .fail => .valueError
    | .cont s1 trip emit =>
      convertLoop st fuel s1 (trips ++ trip.toList) (emits ++ emit.toList)

/-- Model of Session._convert_ctor: prune the cache, run the scan loop,
then strip the result and wrap a bracketed list in the ensobjlist
constructor. -/
def convert_ctor (st : SessState) (fuel : Nat) (s : Str) : ConvertResult :=
  match convertLoop (prune_hash st) fuel s [] [] with
  | .ok s1 trips emits =>
    let s2 := stripStr s1
    let s3 :=
      if begins s2 (S "[") && begins s2.reverse (S "]") then
        S "ensobjlist(" ++ s2 ++ S ")"
      else s2
    .ok s3 trips emits
  | r => r

/-- Modelled from the spec: the ENSOBJ proxy classes and ensobjlist (the
generated object API, not part of src/) evaluate the rewritten result text
in Session.cmd; each constructor expression session.ensight.objs.CLS
constructs a live proxy handle which registers itself in the session cache
through Session.add_ensobj_instance, in the left-to-right order of the
expressions, while cache-lookup expressions only read the cache.  A
marshalling pass is therefore the pruned-cache scan followed by one
registration per emitted constructor expression. -/
def evalRegister (st : SessState) (emits : List (Int × Str × Option (Int × Int))) : SessState :=
  emits.foldl (fun acc e => add_ensobj_instance acc e.1) st

/-- One marshalling pass over a result text in Session.cmd: _convert_ctor
followed by the eval of the rewritten text, which registers the freshly
constructed handles (see evalRegister). -/
def marshalPass (st : SessState) (fuel : Nat) (s : Str) : ConvertResult × SessState :=
  match convertLoop (prune_hash st) fuel s [] [] with
  | .ok s1 trips emits =>
    let s2 := stripStr s1
    let s3 :=
      if begins s2 (S "[") && begins s2.reverse (S "]") then
        S "ensobjlist(" ++ s2 ++ S ")"
      else s2
    (.ok s3 trips emits, evalRegister (prune_hash st) emits)
  | r => (r, prune_hash st)

/-!
Model of the Session callback registry (Session.add_callback,
Session.remove_callback, Session._event_callback).  A registered local
callable is modelled by a natural token; the registry self._callbacks is
an insertion-ordered association list from short tag to the pair of the
remote callback id and the callable token, matching Python dict iteration
order.
-/

/-- Combined callback-registry state of a Session and its EnSightGRPC
instance. -/
structure SessCb where
  callbacks : List (Str × (Nat × Nat))
  grpc : GrpcState
deriving DecidableEq

/-- Computation of the short tag in Session.add_callback: the tag
truncated at its first question mark (tag.index with the ValueError
handler falling back to the whole tag). -/
def short_tag_of (tag : Str) : Str :=
  match pyFindAux tag (S "?") with
  | some idx => tag.take idx
  | none => tag

/-- Errors raised by Session.add_callback: the duplicate-tag RuntimeError,
and the TypeError raised by the call
self.grpc.event_stream_enable(callback=self.event_callback), since
EnSightGRPC.event_stream_enable as declared in ensight_grpc.py accepts no
callback keyword argument, so the call fails before the method body
runs. -/
inductive AddCbErr where
  | dupTag
  | typeErrEnable
deriving DecidableEq

/-- Model of Session.add_callback.  callback_id is the remote callback
identity returned by the armed watch (the ensight.objs.addcallback round
trip), method the local callable token.  The returned boolean records
whether that remote round trip was issued.  The duplicate-tag check
happens before any remote call; when the registry is empty the
event-stream enabling call raises TypeError (see AddCbErr) after the
remote watch was armed and before the registration is recorded. -/
def add_callback (st : SessCb) (tag : Str) (callback_id : Nat) (method : Nat) :
    Option AddCbErr × SessCb × Bool :=
  let short_tag := short_tag_of tag
  if (strLookup st.callbacks short_tag).isSome then
    (some .dupTag, st, false)
  else
    if st.callbacks.length == 0 then
      (some .typeErrEnable, st, true)
    else
      (none, { st with callbacks := st.callbacks ++ [(short_tag, (callback_id, method))] }, true)

/-- Errors surfaced by Session.remove_callback: the unknown-tag
RuntimeError, or a failure of the remote removecallback round trip (for
example an IOError from a transport drop), which propagates after the
local deletion already happened. -/
inductive RemCbErr where
  | unknownTag
  | remoteFail
deriving DecidableEq

/-- Model of Session.remove_callback: raise on an unknown tag, otherwise
delete the local registration first and only then issue the remote
removecallback round trip, whose outcome is the remoteOk parameter. -/
def remove_callback (st : SessCb) (tag : Str) (remoteOk : Bool) :
    Option RemCbErr × SessCb :=
  match strLookup st.callbacks tag with
  | none => (some .unknownTag, st)
  | some _ =>
    let st1 : SessCb := { st with callbacks := strErase st.callbacks tag }
    if remoteOk then (none, st1) else (some .remoteFail, st1)

/-- Scheme-name character test of urllib.parse: letters, digits, plus,
minus and dot, with a leading letter. -/
def schemeChars (s : Str) : Bool :=
  match s with
  | [] => false
  | c :: t => c.isAlpha && t.all (fun d => d.isAlpha || d.isDigit || d == '+' || d == '-' || d == '.')

/-- Path component of urllib.parse.urlparse, modelling the Python standard
library (an external collaborator of session.py) for URLs without
parameter sections: strip a valid scheme prefix up to the colon, strip a
netloc introduced by a double slash up to the next slash, question mark or
hash, then cut the remainder at the fragment and query separators. -/
def urlPath (u : Str) : Str :=
  let afterScheme :=
    match pyFindAux u (S ":") with
    | some i => if 0 < i && schemeChars (u.take i) then u.drop (i + 1) else u
    | none => u
  let afterNet :=
    if begins afterScheme (S "//") then
      let rest := afterScheme.drop 2
      rest.drop (rest.takeWhile (fun c => !(c == '/' || c == '?' || c == '#'))).length
    else afterScheme
  (afterNet.takeWhile (fun c => !(c == '#'))).takeWhile (fun c => !(c == '?'))

/-- Matching loop of Session._event_callback: walk the registry in
insertion order and invoke the first registration whose short tag begins
the fired tag, passing the full URL; return nothing when no registration
matches (the unhandled notification is only printed). -/
def dispatchCb (tag cmd1 : Str) : List (Str × (Nat × Nat)) → Option (Nat × Str)
  | [] => none
  | (key, v) :: rest =>
    if begins tag key then some (v.2, cmd1) else dispatchCb tag cmd1 rest

/-- Model of Session._event_callback: rewrite the stream-appended query
marker when an earlier question mark is present, parse the path component
as the fired tag, and invoke the first registration whose short tag is a
prefix of that tag with the (possibly rewritten) URL; an unmatched
notification invokes nothing (it is printed as unhandled).  The result is
the invoked callable token with its argument, or none. -/
def event_callback (cbs : List (Str × (Nat × Nat))) (cmd : Str) : Option (Nat × Str) :=
  let idx_question := pyFind cmd (S "?")
  let idx_enum := pyFind cmd (S "?enum=")
  let cmd1 := if idx_question < idx_enum then pyReplace cmd (S "?enum=") (S "&enum=") else cmd
  let tag := (urlPath cmd1).drop 1
  dispatchCb tag cmd1 cbs

/-!
Auxiliary definitions used only to state claims.
-/

/-- Sequence of producer appends to the event queue
(EnSightGRPC._put_event called once per received notification). -/
def putAll (st : GrpcState) (l : List Str) : GrpcState := l.foldl put_event st

/-- Sequence of n consecutive EnSightGRPC.get_event calls, collecting the
returned values. -/
def drain : GrpcState → Nat → List (Option Str) × GrpcState
  | st, 0 => ([], st)
  | st, n + 1 =>
    let (e, st1) := get_event st
    let (rest, st2) := drain st1 n
    (e :: rest, st2)

/-- A connected EnSightGRPC state with no event stream and an empty queue. -/
def freshGrpc : GrpcState := ⟨true, true, false, false, []⟩

/-- A Session callback state with an empty registry over a connected
channel. -/
def freshCb : SessCb := ⟨[], freshGrpc⟩

/-!
Helper lemmas.
-/

lemma putAll_eq (l : List Str) : ∀ st : GrpcState, putAll st l = { st with events := st.events ++ l } := by
  induction l with
  | nil => intro st; simp [putAll]
  | cons e t ih =>
    intro st
    have h1 : putAll st (e :: t) = putAll (put_event st e) t := by
      simp [putAll, List.foldl]
    rw [h1, ih]
    simp [put_event]

lemma drain_succ (st : GrpcState) (n : Nat) :
    drain st (n + 1)
      = ((get_event st).1 :: (drain (get_event st).2 n).1, (drain (get_event st).2 n).2) := by
  cases h : get_event st with
  | mk a b => simp [drain, h]

lemma drain_exact (l : List Str) : ∀ st : GrpcState, st.events = l →
    drain st l.length = (l.map some, { st with events := [] }) := by
  induction l with
  | nil =>
    intro st h
    simp [drain]
    cases st
    simp_all
  | cons e t ih =>
    intro st h
    have hg : get_event st = (some e, { st with events := t }) := by
      simp [get_event, h]
    have hlen : (e :: t).length = t.length + 1 := rfl
    rw [hlen, drain_succ, hg]
    simp [ih { st with events := t } rfl]

lemma drain_exact_succ (l : List Str) : ∀ st : GrpcState, st.events = l →
    drain st (l.length + 1) = (l.map some ++ [none], { st with events := [] }) := by
  induction l with
  | nil =>
    intro st h
    have hg : get_event st = (none, st) := by simp [get_event, h]
    rw [drain_succ, hg]
    simp [drain]
    cases st
    simp_all
  | cons e t ih =>
    intro st h
    have hg : get_event st = (some e, { st with events := t }) := by
      simp [get_event, h]
    have hlen : (e :: t).length + 1 = (t.length + 1) + 1 := rfl
    rw [hlen, drain_succ, hg]
    simp [ih { st with events := t } rfl]

/-!
Claim theorems.
-/

/-- C9: for every sequence of N notification strings appended to the event
queue by the producer, N consecutive get_event calls return exactly those
strings in append order, the queue is then empty (consumption is
destructive), and the next call returns none. -/
theorem fifo_event_consumption (l : List Str) (ch stub es et : Bool) :
    (drain (putAll ⟨ch, stub, es, et, []⟩ l) l.length).1 = l.map some
    ∧ (drain (putAll ⟨ch, stub, es, et, []⟩ l) l.length).2.events = []
    ∧ (drain (putAll ⟨ch, stub, es, et, []⟩ l) (l.length + 1)).1 = l.map some ++ [none] := by
  have hp : putAll ⟨ch, stub, es, et, []⟩ l = ⟨ch, stub, es, et, l⟩ := by
    rw [putAll_eq]; simp
  rw [hp, drain_exact l _ rfl, drain_exact_succ l _ rfl]
  exact ⟨rfl, rfl, rfl⟩

/-- C5: connect is a no-op when a transport is already held; otherwise, on
timeout of transport readiness it returns normally (the model is a total
function), clears the transport handle and leaves is_connected false, so
the timeout is observable only through is_connected. -/
theorem connect_timeout_observable (st : GrpcState) (r : Bool) :
    (is_connected st = true → connect st r = st)
    ∧ (is_connected st = false →
        connect st false = { st with channel := false }
        ∧ is_connected (connect st false) = false) := by
  constructor
  · intro h
    simp [connect, h]
  · intro h
    simp [connect, is_connected, h] at *
    simp [h]

/-- Witness for connect_timeout_observable at concrete states. -/
theorem connect_timeout_observable_witness :
    (is_connected freshGrpc = true ∧ connect freshGrpc true = freshGrpc)
    ∧ (is_connected ⟨false, false, false, false, []⟩ = false
        ∧ is_connected (connect ⟨false, false, false, false, []⟩ false) = false) :=
  ⟨⟨by decide, (connect_timeout_observable freshGrpc true).1 (by decide)⟩,
   ⟨by decide, ((connect_timeout_observable ⟨false, false, false, false, []⟩ false).2 (by decide)).2⟩⟩

/-- C4: in EnSightGRPC.command a transport drop during the RunPython call
raises IOError, a reply with a negative remote error code raises
RuntimeError, the two exception classes are distinct, both surface
synchronously as the result of the call, and at most one RunPython
transport call is issued (no retry). -/
theorem command_error_taxonomy (st : GrpcState) (r : Bool) (e : Int) (v : Str)
    (o : RunPyOutcome) (d : Bool) :
    (command st r .drop d).1 = .error .ioError
    ∧ ((connect st r).stub = true → e < 0 →
        (command st r (.reply e v) d).1 = .error .runtimeError)
    ∧ (command st r o d).2.2 ≤ 1
    ∧ PyExc.ioError ≠ PyExc.runtimeError := by
  refine ⟨?_, ?_, ?_, by decide⟩
  · cases hstub : (connect st r).stub <;> simp [command, hstub]
  · intro hstub he
    simp [command, hstub, he]
  · cases hstub : (connect st r).stub <;> cases o <;> cases d <;>
      simp [command, hstub] <;> split_ifs <;> simp

/-- Witness for command_error_taxonomy at a concrete connected state. -/
theorem command_error_taxonomy_witness :
    (connect freshGrpc true).stub = true ∧ (-1 : Int) < 0
    ∧ (command freshGrpc true (.reply (-1) (S "x")) true).1 = .error .runtimeError :=
  ⟨by decide, by decide,
   (command_error_taxonomy freshGrpc true (-1) (S "x") .drop true).2.1 (by decide) (by decide)⟩

lemma strLookup_eq_none_of_not_mem {α : Type} (d : List (Str × α)) (k : Str)
    (h : k ∉ d.map Prod.fst) : strLookup d k = none := by
  induction d with
  | nil => rfl
  | cons p t ih =>
    rcases p with ⟨k0, v⟩
    rw [List.map_cons] at h
    have h1 : k ≠ k0 := fun he => h (by rw [he]; exact List.mem_cons_self _ _)
    have h2 : k ∉ t.map Prod.fst := fun hm => h (List.mem_cons_of_mem _ hm)
    show (if k = k0 then some v else strLookup t k) = none
    rw [if_neg h1]
    exact ih h2

lemma strLookup_strErase_self {α : Type} (d : List (Str × α)) (k : Str)
    (h : (d.map Prod.fst).Nodup) : strLookup (strErase d k) k = none := by
  induction d with
  | nil => rfl
  | cons p t ih =>
    rcases p with ⟨k0, v⟩
    rw [List.map_cons] at h
    rcases List.nodup_cons.mp h with ⟨hnotin, hnd⟩
    by_cases he : k = k0
    · have h0 : strErase ((k0, v) :: t) k = t := by
        show (if k = k0 then t else (k0, v) :: strErase t k) = t
        rw [if_pos he]
      rw [h0]
      apply strLookup_eq_none_of_not_mem
      rw [he]
      exact hnotin
    · have h0 : strErase ((k0, v) :: t) k = (k0, v) :: strErase t k := by
        show (if k = k0 then t else (k0, v) :: strErase t k) = _
        rw [if_neg he]
      rw [h0]
      show (if k = k0 then some v else strLookup (strErase t k) k) = none
      rw [if_neg he]
      exact ih hnd

/-- C10: remove_callback deletes the local registration entry before
issuing the remote disarm call, so when the remote call fails the local
entry is already gone and a repeated remove_callback with the same tag
raises the unknown-tag RuntimeError instead of retrying the disarm; the
deleted registry is the same whether or not the remote call succeeds. -/
theorem remove_callback_deletes_before_disarm (st : SessCb) (tag : Str) (cid m : Nat)
    (hreg : strLookup st.callbacks tag = some (cid, m))
    (hnd : (st.callbacks.map Prod.fst).Nodup) :
    (remove_callback st tag false).1 = some .remoteFail
    ∧ strLookup (remove_callback st tag false).2.callbacks tag = none
    ∧ remove_callback (remove_callback st tag false).2 tag true
        = (some .unknownTag, (remove_callback st tag false).2)
    ∧ (remove_callback st tag true).1 = none
    ∧ (remove_callback st tag true).2.callbacks = (remove_callback st tag false).2.callbacks := by
  have h1 : (remove_callback st tag false) = (some .remoteFail, { st with callbacks := strErase st.callbacks tag }) := by
    simp [remove_callback, hreg]
  have hnone : strLookup (strErase st.callbacks tag) tag = none :=
    strLookup_strErase_self st.callbacks tag hnd
  refine ⟨by rw [h1], by rw [h1]; exact hnone, ?_, ?_, ?_⟩
  · rw [h1]
    simp [remove_callback, hnone]
  · simp [remove_callback, hreg]
  · rw [h1]
    simp [remove_callback, hreg]

/-- Witness for remove_callback_deletes_before_disarm on a concrete
one-entry registry. -/
theorem remove_callback_deletes_before_disarm_witness :
    strLookup ([(S "foo", (3, 4))] : List (Str × (Nat × Nat))) (S "foo") = some (3, 4)
    ∧ (remove_callback ⟨[(S "foo", (3, 4))], freshGrpc⟩ (S "foo") false).1 = some .remoteFail
    ∧ strLookup (remove_callback ⟨[(S "foo", (3, 4))], freshGrpc⟩ (S "foo") false).2.callbacks (S "foo") = none :=
  ⟨by decide,
   (remove_callback_deletes_before_disarm ⟨[(S "foo", (3, 4))], freshGrpc⟩ (S "foo") 3 4 (by decide) (by decide)).1,
   (remove_callback_deletes_before_disarm ⟨[(S "foo", (3, 4))], freshGrpc⟩ (S "foo") 3 4 (by decide) (by decide)).2.1⟩

lemma obj_attr_subtype_part (st : SessState) :
    obj_attr_subtype st (S "ENS_PART") = some (st.parttype, part_lookup_dict) := by
  unfold obj_attr_subtype
  rw [if_pos rfl]

lemma obj_attr_subtype_annot (st : SessState) :
    obj_attr_subtype st (S "ENS_ANNOT") = some (st.annottype, annot_lookup_dict) := by
  unfold obj_attr_subtype
  rw [if_neg (by decide), if_pos rfl]

lemma obj_attr_subtype_tool (st : SessState) :
    obj_attr_subtype st (S "ENS_TOOL") = some (st.tooltype, tool_lookup_dict) := by
  unfold obj_attr_subtype
  rw [if_neg (by decide), if_neg (by decide), if_pos rfl]

/-- C2: for each class with a subtype table (ENS_PART, ENS_ANNOT,
ENS_TOOL) and every discriminator value returned by the secondary round
trip (the oracle), the class name placed in the generated constructor is
exactly the submap entry for that value when the value is a key, and the
unchanged base class name otherwise; exactly one getattr round trip is
issued with the discriminator attribute id of the class; and resolution
never raises (the only failure of a scan step is the identity parse). -/
theorem subtype_resolution_determinism (st : SessState) (objid : Int) :
    ((fresh_replace st (S "ENS_PART") objid).2.2.2.1
        = (dictLookup part_lookup_dict (st.oracle objid st.parttype)).getD (S "ENS_PART"))
    ∧ (fresh_replace st (S "ENS_PART") objid).2.1 = some (objid, st.parttype)
    ∧ ((fresh_replace st (S "ENS_PART") objid).1
        = ctorText ((dictLookup part_lookup_dict (st.oracle objid st.parttype)).getD (S "ENS_PART")) objid
            (match dictLookup part_lookup_dict (st.oracle objid st.parttype) with
             | some _ => S ",attr_id=" ++ intToStr st.parttype ++ S ", attr_value="
                 ++ intToStr (st.oracle objid st.parttype)
             | none => S ""))
    ∧ ((fresh_replace st (S "ENS_ANNOT") objid).2.2.2.1
        = (dictLookup annot_lookup_dict (st.oracle objid st.annottype)).getD (S "ENS_ANNOT"))
    ∧ (fresh_replace st (S "ENS_ANNOT") objid).2.1 = some (objid, st.annottype)
    ∧ ((fresh_replace st (S "ENS_TOOL") objid).2.2.2.1
        = (dictLookup tool_lookup_dict (st.oracle objid st.tooltype)).getD (S "ENS_TOOL"))
    ∧ (fresh_replace st (S "ENS_TOOL") objid).2.1 = some (objid, st.tooltype)
    ∧ (∀ s : Str, ctorStep st s = .fail → ctorParse s = .fail) := by
  refine ⟨?_, ?_, ?_, ?_, ?_, ?_, ?_, ?_⟩
  · cases h : dictLookup part_lookup_dict (st.oracle objid st.parttype) <;>
      simp [fresh_replace, obj_attr_subtype_part, h]
  · cases h : dictLookup part_lookup_dict (st.oracle objid st.parttype) <;>
      simp [fresh_replace, obj_attr_subtype_part, h]
  · cases h : dictLookup part_lookup_dict (st.oracle objid st.parttype) <;>
      simp [fresh_replace, obj_attr_subtype_part, h]
  · cases h : dictLookup annot_lookup_dict (st.oracle objid st.annottype) <;>
      simp [fresh_replace, obj_attr_subtype_annot, h]
  · cases h : dictLookup annot_lookup_dict (st.oracle objid st.annottype) <;>
      simp [fresh_replace, obj_attr_subtype_annot, h]
  · cases h : dictLookup tool_lookup_dict (st.oracle objid st.tooltype) <;>
      simp [fresh_replace, obj_attr_subtype_tool, h]
  · cases h : dictLookup tool_lookup_dict (st.oracle objid st.tooltype) <;>
      simp [fresh_replace, obj_attr_subtype_tool, h]
  · intro s h
    unfold ctorStep at h
    cases hp : ctorParse s with
    | halt => rw [hp] at h; exact absurd h (by simp)
    | fail => rfl
    | found a b c dd e f =>
      rw [hp] at h
      by_cases hc : (dictLookup st.hash e).isSome
      · simp [hc] at h
      · rcases hfr : fresh_replace st f e with ⟨rt, tr, em⟩
        simp [hc, hfr] at h

/-- Witness for subtype_resolution_determinism: at a concrete state whose
oracle reports discriminator value 2 the ENS_PART resolution yields
ENS_PART_CONTOUR, and the no-raise conjunct applies to a concrete step. -/
theorem subtype_resolution_determinism_witness :
    (fresh_replace ⟨[], 0, 99, 88, 77, fun _ _ => 2⟩ (S "ENS_PART") 10).2.2.2.1 = S "ENS_PART_CONTOUR" := by
  have h := (subtype_resolution_determinism ⟨[], 0, 99, 88, 77, fun _ _ => 2⟩ 10).1
  rw [h]
  decide

/-- C6 (code bug): on a fresh Session the first add_callback under short
tag foo does not succeed: because the registry is empty the call reaches
self.grpc.event_stream_enable(callback=...), which raises TypeError since
EnSightGRPC.event_stream_enable accepts no callback keyword argument, and
it does so after the remote addcallback round trip was already issued; no
registration is recorded, so a second add_callback whose tag truncates to
the same short tag raises the same TypeError and never the duplicate-tag
RuntimeError the claim requires.  The duplicate-tag check itself does sit
before the remote call: from a (not reachable through add_callback) state
that already holds foo, a second foo registration raises the duplicate
error with no remote call, and a bar registration succeeds. -/
theorem add_callback_registration_uniqueness_bug :
    add_callback freshCb (S "foo") 11 1 = (some .typeErrEnable, freshCb, true)
    ∧ add_callback freshCb (S "foo?x=1") 12 2 = (some .typeErrEnable, freshCb, true)
    ∧ short_tag_of (S "foo?x=1") = S "foo"
    ∧ add_callback ⟨[(S "foo", (11, 1))], freshGrpc⟩ (S "foo?x=1") 12 2
        = (some .dupTag, ⟨[(S "foo", (11, 1))], freshGrpc⟩, false)
    ∧ add_callback ⟨[(S "foo", (11, 1))], freshGrpc⟩ (S "bar") 12 2
        = (none, ⟨[(S "foo", (11, 1)), (S "bar", (12, 2))], freshGrpc⟩, true) := by
  decide

/-- C7 (code bug): a first add_callback on a Session with an empty
callback registry never succeeds and never enables the event stream: the
call self.grpc.event_stream_enable(callback=self.event_callback) raises
TypeError because the method signature in ensight_grpc.py takes no
callback argument, the registration is not recorded, and the grpc stream
state is untouched; the grpc-level event_stream_enable itself, invoked as
declared, would enable the stream. -/
theorem add_callback_first_enable_type_error :
    (add_callback freshCb (S "partlist") 21 3).1 = some .typeErrEnable
    ∧ (add_callback freshCb (S "partlist") 21 3).2.1 = freshCb
    ∧ freshCb.grpc.event_stream = false
    ∧ strLookup (add_callback freshCb (S "partlist") 21 3).2.1.callbacks (S "partlist") = none
    ∧ event_stream_enable freshGrpc true = some ⟨true, true, true, true, []⟩ := by
  decide

lemma dictLookup_dictInsert_self {α : Type} (d : List (Int × α)) (k : Int) (v : α) :
    dictLookup (dictInsert d k v) k = some v := by
  induction d with
  | nil => simp [dictInsert, dictLookup]
  | cons p t ih =>
    rcases p with ⟨k0, v0⟩
    by_cases h : k = k0
    · simp [dictInsert, dictLookup, h]
    · have hb : (k == k0) = false := by simp [h]
      simp [dictInsert, dictLookup, hb, ih]

lemma dictLookup_dictInsert_ne {α : Type} (d : List (Int × α)) (k j : Int) (v : α)
    (h : j ≠ k) : dictLookup (dictInsert d k v) j = dictLookup d j := by
  induction d with
  | nil => simp [dictInsert, dictLookup, h]
  | cons p t ih =>
    rcases p with ⟨k0, v0⟩
    by_cases h0 : k = k0
    · have hj : (j == k0) = false := by simp [h0 ▸ h]
      simp [dictInsert, dictLookup, h0, hj, h]
    · have hb : (k == k0) = false := by simp [h0]
      by_cases hj : j = k0
      · simp [dictInsert, dictLookup, hb, hj]
      · simp [dictInsert, dictLookup, hb, hj, ih]

lemma dictLookup_dictInsert_isSome {α : Type} (d : List (Int × α)) (k j : Int) (v : α)
    (h : (dictLookup d j).isSome) : (dictLookup (dictInsert d k v) j).isSome := by
  by_cases he : j = k
  · rw [he, dictLookup_dictInsert_self]; rfl
  · rw [dictLookup_dictInsert_ne d k j v he]; exact h

lemma fresh_replace_objids (st : SessState) (cn : Str) (objid : Int) :
    (fresh_replace st cn objid).2.2.1 = objid
    ∧ (∀ p a, (fresh_replace st cn objid).2.1 = some (p, a) → p = objid) := by
  rcases h : obj_attr_subtype st cn with _ | ⟨aid, tbl⟩
  · simp [fresh_replace, h]
  · cases h2 : dictLookup tbl (st.oracle objid aid) <;> simp [fresh_replace, h, h2]

lemma ctorStep_cont_uncached (st : SessState) (s s1 : Str)
    (tr : Option (Int × Int)) (em : Option (Int × Str × Option (Int × Int)))
    (h : ctorStep st s = .cont s1 tr em) :
    (∀ p a, tr = some (p, a) → dictLookup st.hash p = none)
    ∧ (∀ e, em = some e → dictLookup st.hash e.1 = none) := by
  unfold ctorStep at h
  cases hp : ctorParse s with
  | halt => rw [hp] at h; exact absurd h (by simp)
  | fail => rw [hp] at h; exact absurd h (by simp)
  | found a b c dd j cn =>
    rw [hp] at h
    dsimp only at h
    by_cases hc : (dictLookup st.hash j).isSome = true
    · rw [if_pos hc] at h
      injection h with h1 h2 h3
      constructor
      · intro p aa hpp
        rw [← h2] at hpp
        exact Option.noConfusion hpp
      · intro e hee
        rw [← h3] at hee
        exact Option.noConfusion hee
    · have hnone : dictLookup st.hash j = none := by
        cases hx : dictLookup st.hash j
        · rfl
        · rw [hx] at hc; exact absurd rfl hc
      rw [if_neg hc] at h
      have hids := fresh_replace_objids st cn j
      rcases hfr : fresh_replace st cn j with ⟨rt, trf, emf⟩
      rw [hfr] at h hids
      injection h with h1 h2 h3
      constructor
      · intro p aa hpp
        have hth : trf = some (p, aa) := h2.trans hpp
        have hpj : p = j := hids.2 p aa hth
        rw [hpj]
        exact hnone
      · intro e hee
        have hth : some emf = some e := h3.trans hee
        injection hth with h4
        rw [← h4]
        have hj : emf.1 = j := hids.1
        rw [hj]
        exact hnone

lemma convertLoop_cached_clean (st : SessState) (idv : Int)
    (hc : (dictLookup st.hash idv).isSome = true) :
    ∀ fuel s trips emits s1 trips1 emits1,
    (∀ x ∈ trips, x.1 ≠ idv) → (∀ e ∈ emits, e.1 ≠ idv) →
    convertLoop st fuel s trips emits = .ok s1 trips1 emits1 →
    (∀ x ∈ trips1, x.1 ≠ idv) ∧ (∀ e ∈ emits1, e.1 ≠ idv) := by
  intro fuel
  induction fuel with
  | zero =>
    intro s trips emits s1 trips1 emits1 _ _ h
    exact absurd h (by simp [convertLoop])
  | succ n ih =>
    intro s trips emits s1 trips1 emits1 ht he h
    unfold convertLoop at h
    cases hs : ctorStep st s with
    | halt s2 =>
      rw [hs] at h
      injection h with h1 h2 h3
      rw [← h2, ← h3]
      exact ⟨ht, he⟩
    | fail => rw [hs] at h; exact absurd h (by simp)
    | cont s2 tr em =>
      rw [hs] at h
      have hstep := ctorStep_cont_uncached st s s2 tr em hs
      refine ih s2 (trips ++ tr.toList) (emits ++ em.toList) s1 trips1 emits1 ?_ ?_ h
      · intro x hx
        rcases List.mem_append.mp hx with hx1 | hx2
        · exact ht x hx1
        · rcases tr with _ | ⟨p, aa⟩
          · exact absurd hx2 (by simp)
          · have : x = (p, aa) := by
              simp [Option.toList] at hx2
              exact hx2
            rw [this]
            intro hcon
            have hlook := hstep.1 p aa rfl
            have hpi : p = idv := hcon
            rw [hpi] at hlook
            rw [hlook] at hc
            exact Bool.noConfusion hc
      · intro e hee
        rcases List.mem_append.mp hee with he1 | he2
        · exact he e he1
        · rcases em with _ | f
          · exact absurd he2 (by simp)
          · have : e = f := by
              simp [Option.toList] at he2
              exact he2
            rw [this]
            intro hcon
            have := hstep.2 f rfl
            rw [hcon] at this
            rw [this] at hc
            exact Bool.noConfusion hc

lemma evalRegister_preserve (idv : Int) (tok : Nat) :
    ∀ (emits : List (Int × Str × Option (Int × Int))) (st : SessState),
    dictLookup st.hash idv = some tok → (∀ e ∈ emits, e.1 ≠ idv) →
    dictLookup (evalRegister st emits).hash idv = some tok := by
  intro emits
  induction emits with
  | nil => intro st h _; exact h
  | cons f t ih =>
    intro st h hall
    have hne : idv ≠ f.1 := fun hx => hall f (List.mem_cons_self _ _) hx.symm
    have hstep : dictLookup (add_ensobj_instance st f.1).hash idv = some tok := by
      unfold add_ensobj_instance
      rw [dictLookup_dictInsert_ne _ _ _ _ hne]
      exact h
    have hrec := ih (add_ensobj_instance st f.1) hstep
      (fun e hee => hall e (List.mem_cons_of_mem _ hee))
    have hfold : evalRegister st (f :: t) = evalRegister (add_ensobj_instance st f.1) t := by
      simp [evalRegister, List.foldl]
    rw [hfold]
    exact hrec

lemma evalRegister_isSome_mono (j : Int) :
    ∀ (emits : List (Int × Str × Option (Int × Int))) (st : SessState),
    (dictLookup st.hash j).isSome = true →
    (dictLookup (evalRegister st emits).hash j).isSome = true := by
  intro emits
  induction emits with
  | nil => intro st h; exact h
  | cons f t ih =>
    intro st h
    have hfold : evalRegister st (f :: t) = evalRegister (add_ensobj_instance st f.1) t := by
      simp [evalRegister, List.foldl]
    rw [hfold]
    apply ih
    unfold add_ensobj_instance
    exact dictLookup_dictInsert_isSome _ _ _ _ h

lemma evalRegister_mem :
    ∀ (emits : List (Int × Str × Option (Int × Int))) (st : SessState)
      (e : Int × Str × Option (Int × Int)), e ∈ emits →
    (dictLookup (evalRegister st emits).hash e.1).isSome = true := by
  intro emits
  induction emits with
  | nil => intro st e he; exact absurd he (by simp)
  | cons f t ih =>
    intro st e he
    have hfold : evalRegister st (f :: t) = evalRegister (add_ensobj_instance st f.1) t := by
      simp [evalRegister, List.foldl]
    rw [hfold]
    rcases List.mem_cons.mp he with he1 | he2
    · apply evalRegister_isSome_mono
      rw [he1]
      unfold add_ensobj_instance
      simp [dictLookup_dictInsert_self]
    · exact ih _ e he2

lemma prune_hash_eq (st : SessState) (h : st.hash.length ≤ 1000000) :
    prune_hash st = st := by
  unfold prune_hash
  rw [if_neg (by omega)]

/-- State for the C1 counterexample: empty cache, PARTTYPE attribute id
1610612792 as in the source docstring, and a remote whose discriminator
query reports 0 (ENS_PART_MODEL). -/
def exDupState : SessState := ⟨[], 0, 1610612792, 2, 3, fun _ _ => 0⟩

/-- Result text mentioning the same CvfObjID twice. -/
def exDupText : Str :=
  S "[Class: ENS_PART, CvfObjID: 5, cached:no, Class: ENS_PART, CvfObjID: 5, cached:no]"

/-- Rewritten text the marshaller produces for exDupText. -/
def exDupOut : Str :=
  S "ensobjlist([session.ensight.objs.ENS_PART_MODEL(session, 5,attr_id=1610612792, attr_value=0), session.ensight.objs.ENS_PART_MODEL(session, 5,attr_id=1610612792, attr_value=0)])"

/-- C1 counterexample: one marshalling pass over a result text containing
identity 5 twice rewrites the second occurrence to a second constructor
expression, not to session.obj_instance(5) (the output contains no
obj_instance call at all), and issues two discriminator round trips for
the same identity; the cache is only updated after the pass, with the
handle of the second construction overwriting the first. -/
theorem convert_identity_stability_counterexample :
    (marshalPass exDupState 10 exDupText).1
      = .ok exDupOut [(5, 1610612792), (5, 1610612792)]
          [(5, S "ENS_PART_MODEL", some (1610612792, 0)),
           (5, S "ENS_PART_MODEL", some (1610612792, 0))]
    ∧ pyFindAux exDupOut (S "session.obj_instance") = none
    ∧ (marshalPass exDupState 10 exDupText).2.hash = [(5, 1)]
    ∧ (marshalPass exDupState 10 exDupText).2.next = 2 := by
  set_option maxRecDepth 100000 in decide

/-- C1 (amended): occurrences of an identity already present in the proxy
cache are rewritten to the cache-lookup expression session.obj_instance,
the pass issues no discriminator round trip and emits no constructor for
such an identity, and its cached handle survives the pass unchanged, so
resolutions in later passes return the identical handle; occurrences of an
identity not in the cache are rewritten to constructor expressions (with
the subtype round trip decided by fresh_replace) and every constructed
handle is recorded in the cache when the pass result is evaluated. -/
theorem convert_identity_stability_amended
    (st : SessState) (idv : Int) (tok : Nat)
    (hcache : dictLookup st.hash idv = some tok)
    (hsize : st.hash.length ≤ 1000000)
    (fuel : Nat) (s : Str) :
    (∀ start idn tail len cn, ctorParse s = .found start idn tail len idv cn →
        ctorStep st s = .cont (s.take start ++ objInstanceStr idv ++ s.drop (tail + len)) none none)
    ∧ (∀ start idn tail len j cn, ctorParse s = .found start idn tail len j cn →
        dictLookup st.hash j = none →
        ctorStep st s = .cont (s.take start ++ (fresh_replace st cn j).1 ++ s.drop (tail + len))
            (fresh_replace st cn j).2.1 (some (fresh_replace st cn j).2.2))
    ∧ (∀ s1 trips emits, (marshalPass st fuel s).1 = .ok s1 trips emits →
        (∀ x ∈ trips, x.1 ≠ idv) ∧ (∀ e ∈ emits, e.1 ≠ idv)
        ∧ dictLookup (marshalPass st fuel s).2.hash idv = some tok
        ∧ (∀ e ∈ emits, (dictLookup (marshalPass st fuel s).2.hash e.1).isSome = true)) := by
  refine ⟨?_, ?_, ?_⟩
  · intro start idn tail len cn hp
    unfold ctorStep
    rw [hp]
    dsimp only
    rw [if_pos (by rw [hcache]; rfl)]
  · intro start idn tail len j cn hp hj
    unfold ctorStep
    rw [hp]
    dsimp only
    rw [if_neg (by rw [hj]; simp)]
  · intro s1 trips emits h
    unfold marshalPass at h ⊢
    rw [prune_hash_eq st hsize] at h ⊢
    cases hl : convertLoop st fuel s [] [] with
    | ok s2 tr2 em2 =>
      rw [hl] at h
      dsimp only at h
      injection h with hh1 hh2 hh3
      have hclean := convertLoop_cached_clean st idv (by rw [hcache]; rfl) fuel s [] []
        s2 tr2 em2 (by simp) (by simp) hl
      refine ⟨?_, ?_, ?_, ?_⟩
      · rw [← hh2]; exact hclean.1
      · rw [← hh3]; exact hclean.2
      · exact evalRegister_preserve idv tok em2 st hcache hclean.2
      · intro e hee
        rw [← hh3] at hee
        exact evalRegister_mem em2 st e hee
    | valueError =>
      rw [hl] at h
      dsimp only at h
      exact absurd h (by simp)
    | fuelOut =>
      rw [hl] at h
      dsimp only at h
      exact absurd h (by simp)

/-- State for the C1 witness: identity 221 already cached with handle
token 7. -/
def wSt : SessState := ⟨[(221, 7)], 8, 99, 88, 77, fun _ _ => 0⟩

/-- Result text for the C1 witness naming the cached identity. -/
def wS : Str := S "Class: ENS_GLOBALS, CvfObjID: 221, cached:yes"

/-- Witness for convert_identity_stability_amended at a concrete cached
state and result text. -/
theorem convert_identity_stability_amended_witness :
    dictLookup wSt.hash 221 = some 7
    ∧ wSt.hash.length ≤ 1000000
    ∧ (∀ s1 trips emits, (marshalPass wSt 10 wS).1 = .ok s1 trips emits →
        (∀ x ∈ trips, x.1 ≠ 221) ∧ (∀ e ∈ emits, e.1 ≠ 221)
        ∧ dictLookup (marshalPass wSt 10 wS).2.hash 221 = some 7
        ∧ (∀ e ∈ emits, (dictLookup (marshalPass wSt 10 wS).2.hash e.1).isSome = true)) :=
  ⟨by decide, by decide,
   (convert_identity_stability_amended wSt 221 7 (by decide) (by decide) 10 wS).2.2⟩

lemma begins_append_self (p x : Str) : begins (p ++ x) p = true := by
  induction p with
  | nil => cases x <;> rfl
  | cons c t ih => simp [begins, ih]

lemma pyFindAux_spec (p : Str) : ∀ (s : Str) (i : Nat),
    begins (s.drop i) p = true →
    (∀ j, j < i → begins (s.drop j) p = false) →
    pyFindAux s p = some i := by
  intro s
  induction s with
  | nil =>
    intro i hocc hmin
    cases i with
    | zero =>
      simp at hocc
      simp [pyFindAux, hocc]
    | succ n =>
      have h0 := hmin 0 (Nat.succ_pos n)
      simp at h0 hocc
      rw [hocc] at h0
      exact Bool.noConfusion h0
  | cons c t ih =>
    intro i hocc hmin
    cases i with
    | zero =>
      simp at hocc
      simp [pyFindAux, hocc]
    | succ n =>
      have h0 := hmin 0 (Nat.succ_pos n)
      simp at h0
      have ht : pyFindAux t p = some n := by
        apply ih n
        · exact hocc
        · intro j hj
          exact hmin (j + 1) (Nat.succ_lt_succ hj)
      simp [pyFindAux, h0, ht]

lemma pyFindAux_none (p : Str) : ∀ (s : Str),
    (∀ j, begins (s.drop j) p = false) → pyFindAux s p = none := by
  intro s
  induction s with
  | nil =>
    intro h
    have h0 := h 0
    simp at h0
    simp [pyFindAux, h0]
  | cons c t ih =>
    intro h
    have h0 := h 0
    simp at h0
    simp [pyFindAux, h0]
    exact ih (fun j => h (j + 1))

lemma pyFindAux_append_shift (p : Str) : ∀ (a b : Str),
    (∀ j, j < a.length → begins ((a ++ b).drop j) p = false) →
    pyFindAux (a ++ b) p = (pyFindAux b p).map (· + a.length) := by
  intro a
  induction a with
  | nil =>
    intro b _
    simp
  | cons c t ih =>
    intro b h
    have h0 := h 0 (by simp)
    simp at h0
    have hrec := ih b (fun j hj => h (j + 1) (by simpa using Nat.succ_lt_succ hj))
    simp [pyFindAux, h0, hrec]

lemma begins_single_no (a rest : Str) (c : Char) (h : ∀ x ∈ a, x ≠ c) :
    ∀ j, j < a.length → begins ((a ++ rest).drop j) [c] = false := by
  intro j hj
  rw [List.drop_append_of_le_length (Nat.le_of_lt hj),
      List.drop_eq_getElem_cons hj]
  have hx : a[j] ≠ c := h a[j] (a.getElem_mem hj)
  simp [begins, hx]

lemma digit_not_space (c : Char) (h : isDigitChar c = true) : isSpaceChar c = false := by
  have h1 : c ≠ ' ' := by intro he; rw [he] at h; exact absurd h (by decide)
  have h2 : c ≠ '\t' := by intro he; rw [he] at h; exact absurd h (by decide)
  have h3 : c ≠ '\n' := by intro he; rw [he] at h; exact absurd h (by decide)
  have h4 : c ≠ '\r' := by intro he; rw [he] at h; exact absurd h (by decide)
  simp [isSpaceChar, h1, h2, h3, h4]

lemma dropWhile_space_of_digits (ds : Str) (h : allDigits ds = true) :
    ds.dropWhile isSpaceChar = ds := by
  cases ds with
  | nil => rfl
  | cons d t =>
    have hd : isDigitChar d = true := by
      have := (List.all_eq_true.mp h) d (List.mem_cons_self d t)
      exact this
    rw [List.dropWhile_cons, digit_not_space d hd]
    simp

lemma stripStr_space_digits (ds : Str) (h : allDigits ds = true) :
    stripStr (' ' :: ds) = ds := by
  unfold stripStr
  have h1 : (' ' :: ds).dropWhile isSpaceChar = ds := by
    rw [List.dropWhile_cons]
    simp [isSpaceChar, dropWhile_space_of_digits ds h]
  rw [h1]
  have h2 : allDigits ds.reverse = true := by
    simp [allDigits] at h ⊢
    intro c hc
    exact h c hc
  rw [dropWhile_space_of_digits ds.reverse h2, List.reverse_reverse]

lemma pyInt_space_digits (ds : Str) (h1 : ds ≠ []) (h2 : allDigits ds = true) :
    pyInt (' ' :: ds) = some ((digitsToNat ds : Int)) := by
  unfold pyInt
  rw [stripStr_space_digits ds h2]
  cases ds with
  | nil => exact absurd rfl h1
  | cons d t =>
    have hd : isDigitChar d = true :=
      (List.all_eq_true.mp h2) d (List.mem_cons_self d t)
    have hplus : d ≠ '+' := by intro he; rw [he] at hd; exact absurd hd (by decide)
    have hminus : d ≠ '-' := by intro he; rw [he] at hd; exact absurd hd (by decide)
    simp [hplus, hminus, h2]

lemma begins_nil (s : Str) : begins s [] = true := by
  cases s <;> rfl

lemma pyFindAux_self (p x : Str) : pyFindAux (p ++ x) p = some 0 := by
  apply pyFindAux_spec p (p ++ x) 0
  · exact begins_append_self p x
  · intro j hj
    exact absurd hj (Nat.not_lt_zero j)

lemma pyFindAux_self_shift (a p x : Str)
    (h : ∀ j, j < a.length → begins ((a ++ (p ++ x)).drop j) p = false) :
    pyFindAux (a ++ (p ++ x)) p = some a.length := by
  rw [pyFindAux_append_shift p a (p ++ x) h, pyFindAux_self]
  simp

/-- Rendered form of one object-reference block as emitted by the remote
repl (see the _convert_ctor docstring): the class name, the free-form
fields, the identity digits and the trailing cached qualifier. -/
def mkRef (cls mid ds : Str) (cached : Bool) : Str :=
  S "Class: " ++ (cls ++ (S ", " ++ (mid ++ (S "CvfObjID: " ++ (ds
    ++ (if cached then S ", cached:yes" else S ", cached:no"))))))

lemma ctorParse_core (J cls mid ds T tl : Str) (tlen : Nat)
    (hcls : ∀ x ∈ cls, x ≠ ',')
    (hds1 : ds ≠ []) (hds2 : allDigits ds = true)
    (hC : ∀ j, j < J.length →
        begins ((J ++ (S "Class: " ++ (cls ++ (S ", " ++ (mid ++ (S "CvfObjID: " ++ (ds ++ (tl ++ T)))))))).drop j) (S "Class: ") = false)
    (hI : ∀ j, j < J.length + (7 + (cls.length + (2 + mid.length))) →
        begins ((J ++ (S "Class: " ++ (cls ++ (S ", " ++ (mid ++ (S "CvfObjID: " ++ (ds ++ (tl ++ T)))))))).drop j) (S "CvfObjID:") = false)
    (htail : (match pyFindAux (J ++ (S "Class: " ++ (cls ++ (S ", " ++ (mid ++ (S "CvfObjID: " ++ (ds ++ (tl ++ T)))))))) (S ", cached:no") with
              | some t => some (t, 11)
              | none =>
                match pyFindAux (J ++ (S "Class: " ++ (cls ++ (S ", " ++ (mid ++ (S "CvfObjID: " ++ (ds ++ (tl ++ T)))))))) (S ", cached:yes") with
                | some t => some (t, 12)
                | none => none)
        = some (J.length + (7 + (cls.length + (2 + (mid.length + (10 + ds.length))))), tlen)) :
    ctorParse (J ++ (S "Class: " ++ (cls ++ (S ", " ++ (mid ++ (S "CvfObjID: " ++ (ds ++ (tl ++ T))))))))
      = .found J.length (J.length + (7 + (cls.length + (2 + mid.length))))
          (J.length + (7 + (cls.length + (2 + (mid.length + (10 + ds.length)))))) tlen
          (digitsToNat ds) cls := by
  have c7 : (S "Class: ").length = 7 := rfl
  have c2 : (S ", ").length = 2 := rfl
  have c10 : (S "CvfObjID: ").length = 10 := rfl
  -- the splits of the subject string used by the individual markers
  have hsplitI : J ++ (S "Class: " ++ (cls ++ (S ", " ++ (mid ++ (S "CvfObjID: " ++ (ds ++ (tl ++ T)))))))
      = (J ++ (S "Class: " ++ (cls ++ (S ", " ++ mid)))) ++ (S "CvfObjID:" ++ (' ' :: (ds ++ (tl ++ T)))) := by
    have e : S "CvfObjID: " ++ (ds ++ (tl ++ T)) = S "CvfObjID:" ++ (' ' :: (ds ++ (tl ++ T))) := rfl
    rw [e]
    simp [List.append_assoc]
  have hlen1 : (J ++ (S "Class: " ++ (cls ++ (S ", " ++ mid)))).length
      = J.length + (7 + (cls.length + (2 + mid.length))) := by
    simp [List.length_append, c7, c2]
  -- find Class:
  have hfindC : pyFindAux (J ++ (S "Class: " ++ (cls ++ (S ", " ++ (mid ++ (S "CvfObjID: " ++ (ds ++ (tl ++ T)))))))) (S "Class: ")
      = some J.length :=
    pyFindAux_self_shift J (S "Class: ") _ hC
  -- find CvfObjID:
  have hfindI : pyFindAux (J ++ (S "Class: " ++ (cls ++ (S ", " ++ (mid ++ (S "CvfObjID: " ++ (ds ++ (tl ++ T)))))))) (S "CvfObjID:")
      = some (J.length + (7 + (cls.length + (2 + mid.length)))) := by
    rw [hsplitI]
    rw [← hlen1]
    apply pyFindAux_self_shift
    rw [hlen1]
    intro j hj
    rw [← hsplitI]
    exact hI j hj
  -- the identity slice
  have hdrop9 : (J ++ (S "Class: " ++ (cls ++ (S ", " ++ (mid ++ (S "CvfObjID: " ++ (ds ++ (tl ++ T)))))))).drop
      (J.length + (7 + (cls.length + (2 + mid.length))) + 9) = ' ' :: (ds ++ (tl ++ T)) := by
    rw [hsplitI, ← hlen1, List.drop_append 9]
    rfl
  have hslice : pySlice (J ++ (S "Class: " ++ (cls ++ (S ", " ++ (mid ++ (S "CvfObjID: " ++ (ds ++ (tl ++ T))))))))
      (J.length + (7 + (cls.length + (2 + mid.length))) + 9)
      (J.length + (7 + (cls.length + (2 + (mid.length + (10 + ds.length)))))) = ' ' :: ds := by
    unfold pySlice
    rw [hdrop9]
    have e : (J.length + (7 + (cls.length + (2 + (mid.length + (10 + ds.length))))))
        - (J.length + (7 + (cls.length + (2 + mid.length))) + 9) = ds.length + 1 := by omega
    rw [e, List.take_succ_cons, List.take_left]
  -- the classname slice
  have hdrop7 : (J ++ (S "Class: " ++ (cls ++ (S ", " ++ (mid ++ (S "CvfObjID: " ++ (ds ++ (tl ++ T)))))))).drop
      (J.length + 7) = cls ++ (S ", " ++ (mid ++ (S "CvfObjID: " ++ (ds ++ (tl ++ T))))) := by
    rw [List.drop_append 7]
    rfl
  have hcls0 : pySlice (J ++ (S "Class: " ++ (cls ++ (S ", " ++ (mid ++ (S "CvfObjID: " ++ (ds ++ (tl ++ T))))))))
      (J.length + 7)
      (J.length + (7 + (cls.length + (2 + (mid.length + (10 + ds.length))))))
      = cls ++ (S ", " ++ (mid ++ (S "CvfObjID: " ++ ds))) := by
    unfold pySlice
    rw [hdrop7]
    have e : (J.length + (7 + (cls.length + (2 + (mid.length + (10 + ds.length))))))
        - (J.length + 7) = cls.length + (2 + (mid.length + (10 + ds.length))) := by omega
    rw [e, List.take_append]
    have e2 : (2 : Nat) + (mid.length + (10 + ds.length)) = (S ", ").length + (mid.length + (10 + ds.length)) := by rw [c2]
    rw [e2, List.take_append, List.take_append]
    have e3 : (10 : Nat) + ds.length = (S "CvfObjID: ").length + ds.length := by rw [c10]
    rw [e3, List.take_append, List.take_left]
  -- the comma cut
  have hcomma : pyFindAux (cls ++ (S ", " ++ (mid ++ (S "CvfObjID: " ++ ds)))) (S ",")
      = some cls.length := by
    have e : S ", " ++ (mid ++ (S "CvfObjID: " ++ ds))
        = S "," ++ (' ' :: (mid ++ (S "CvfObjID: " ++ ds))) := rfl
    rw [e]
    apply pyFindAux_self_shift
    exact begins_single_no cls _ ',' hcls
  have hcut : pySliceTo (cls ++ (S ", " ++ (mid ++ (S "CvfObjID: " ++ ds))))
      (pyFind (cls ++ (S ", " ++ (mid ++ (S "CvfObjID: " ++ ds)))) (S ",")) = cls := by
    unfold pyFind
    rw [hcomma]
    dsimp only
    unfold pySliceTo
    rw [if_neg (by omega)]
    rw [Int.toNat_natCast, List.take_left]
  -- assembly
  unfold ctorParse
  rw [hfindI, hfindC]
  dsimp only
  rw [if_neg (by omega)]
  rw [htail]
  dsimp only
  rw [hslice, pyInt_space_digits ds hds1 hds2]
  rw [hcls0, hcut]

/-- C3 (amended): a scan step of Session._convert_ctor over a result text
consisting of free-form text, one rendered object reference and a
remainder, where the free-form parts contain no marker occurrences before
the markers of the reference itself and, when the reference ends in the
cached-yes qualifier, no cached-no qualifier occurs anywhere in the text,
determines the trailing qualifier of the reference (length 11 for
cached-no, 12 for cached-yes), extracts the integer identity given by the
digits after the CvfObjID marker and the class name between the Class
marker and the following comma, and does not raise. -/
theorem scan_step_extraction_amended
    (J cls mid ds T : Str) (cached : Bool)
    (hcls : ∀ x ∈ cls, x ≠ ',')
    (hds1 : ds ≠ []) (hds2 : allDigits ds = true)
    (hC : ∀ j, j < J.length →
        begins ((J ++ (mkRef cls mid ds cached ++ T)).drop j) (S "Class: ") = false)
    (hI : ∀ j, j < J.length + (7 + (cls.length + (2 + mid.length))) →
        begins ((J ++ (mkRef cls mid ds cached ++ T)).drop j) (S "CvfObjID:") = false)
    (hN : cached = false → ∀ j, j < J.length + (7 + (cls.length + (2 + (mid.length + (10 + ds.length))))) →
        begins ((J ++ (mkRef cls mid ds cached ++ T)).drop j) (S ", cached:no") = false)
    (hYn : cached = true → ∀ j,
        begins ((J ++ (mkRef cls mid ds cached ++ T)).drop j) (S ", cached:no") = false)
    (hYy : cached = true → ∀ j, j < J.length + (7 + (cls.length + (2 + (mid.length + (10 + ds.length))))) →
        begins ((J ++ (mkRef cls mid ds cached ++ T)).drop j) (S ", cached:yes") = false) :
    ctorParse (J ++ (mkRef cls mid ds cached ++ T))
      = .found J.length (J.length + (7 + (cls.length + (2 + mid.length))))
          (J.length + (7 + (cls.length + (2 + (mid.length + (10 + ds.length))))))
          (if cached then 12 else 11) ((digitsToNat ds : Int)) cls := by
  have c7 : (S "Class: ").length = 7 := rfl
  have c2 : (S ", ").length = 2 := rfl
  have c10 : (S "CvfObjID: ").length = 10 := rfl
  cases cached with
  | false =>
    have hB : J ++ (mkRef cls mid ds false ++ T)
        = J ++ (S "Class: " ++ (cls ++ (S ", " ++ (mid ++ (S "CvfObjID: " ++ (ds ++ (S ", cached:no" ++ T))))))) := by
      simp [mkRef, List.append_assoc]
    rw [hB] at hC hI hN ⊢
    have hsplit2 : J ++ (S "Class: " ++ (cls ++ (S ", " ++ (mid ++ (S "CvfObjID: " ++ (ds ++ (S ", cached:no" ++ T)))))))
        = (J ++ (S "Class: " ++ (cls ++ (S ", " ++ (mid ++ (S "CvfObjID: " ++ ds)))))) ++ (S ", cached:no" ++ T) := by
      simp [List.append_assoc]
    have hlen2 : (J ++ (S "Class: " ++ (cls ++ (S ", " ++ (mid ++ (S "CvfObjID: " ++ ds)))))).length
        = J.length + (7 + (cls.length + (2 + (mid.length + (10 + ds.length))))) := by
      simp [List.length_append, c7, c2, c10]
    have hfindNo : pyFindAux (J ++ (S "Class: " ++ (cls ++ (S ", " ++ (mid ++ (S "CvfObjID: " ++ (ds ++ (S ", cached:no" ++ T)))))))) (S ", cached:no")
        = some (J.length + (7 + (cls.length + (2 + (mid.length + (10 + ds.length)))))) := by
      rw [hsplit2, ← hlen2]
      apply pyFindAux_self_shift
      rw [hlen2]
      intro j hj
      rw [← hsplit2]
      exact hN rfl j hj
    exact ctorParse_core J cls mid ds T (S ", cached:no") 11 hcls hds1 hds2 hC hI (by rw [hfindNo])
  | true =>
    have hB : J ++ (mkRef cls mid ds true ++ T)
        = J ++ (S "Class: " ++ (cls ++ (S ", " ++ (mid ++ (S "CvfObjID: " ++ (ds ++ (S ", cached:yes" ++ T))))))) := by
      simp [mkRef, List.append_assoc]
    rw [hB] at hC hI hYn hYy ⊢
    have hsplit2 : J ++ (S "Class: " ++ (cls ++ (S ", " ++ (mid ++ (S "CvfObjID: " ++ (ds ++ (S ", cached:yes" ++ T)))))))
        = (J ++ (S "Class: " ++ (cls ++ (S ", " ++ (mid ++ (S "CvfObjID: " ++ ds)))))) ++ (S ", cached:yes" ++ T) := by
      simp [List.append_assoc]
    have hlen2 : (J ++ (S "Class: " ++ (cls ++ (S ", " ++ (mid ++ (S "CvfObjID: " ++ ds)))))).length
        = J.length + (7 + (cls.length + (2 + (mid.length + (10 + ds.length))))) := by
      simp [List.length_append, c7, c2, c10]
    have hfindNoNone : pyFindAux (J ++ (S "Class: " ++ (cls ++ (S ", " ++ (mid ++ (S "CvfObjID: " ++ (ds ++ (S ", cached:yes" ++ T)))))))) (S ", cached:no")
        = none :=
      pyFindAux_none _ _ (hYn rfl)
    have hfindYes : pyFindAux (J ++ (S "Class: " ++ (cls ++ (S ", " ++ (mid ++ (S "CvfObjID: " ++ (ds ++ (S ", cached:yes" ++ T)))))))) (S ", cached:yes")
        = some (J.length + (7 + (cls.length + (2 + (mid.length + (10 + ds.length)))))) := by
      rw [hsplit2, ← hlen2]
      apply pyFindAux_self_shift
      rw [hlen2]
      intro j hj
      rw [← hsplit2]
      exact hYy rfl j hj
    exact ctorParse_core J cls mid ds T (S ", cached:yes") 12 hcls hds1 hds2 hC hI
      (by rw [hfindNoNone]; dsimp only; rw [hfindYes])

def exMixText : Str :=
  S "Class: ENS_ANNOT, CvfObjID: 7, cached:yes Class: ENS_ANNOT, CvfObjID: 8, cached:no"

theorem scan_step_extraction_counterexample :
    ctorParse exMixText = .fail
    ∧ convert_ctor ⟨[], 0, 99, 88, 77, fun _ _ => 0⟩ 10 exMixText = .valueError := by
  constructor
  · decide
  · decide

theorem scan_step_extraction_amended_witness :
    (∀ x ∈ S "ENS_PART", x ≠ ',') ∧ (S "1078" : Str) ≠ [] ∧ allDigits (S "1078") = true
    ∧ ctorParse (S "[" ++ (mkRef (S "ENS_PART") (S "desc: x, ") (S "1078") false ++ S "]"))
        = .found 1 27 41 11 1078 (S "ENS_PART") :=
  ⟨by decide, by decide, by decide,
   scan_step_extraction_amended (S "[") (S "ENS_PART") (S "desc: x, ") (S "1078") (S "]") false
     (by decide) (by decide) (by decide) (by decide) (by decide) (by decide)
     (fun hcon => Bool.noConfusion hcon) (fun hcon => Bool.noConfusion hcon)⟩

lemma takeWhile_all {p : Char → Bool} : ∀ (a : Str), (∀ x ∈ a, p x = true) →
    a.takeWhile p = a := by
  intro a
  induction a with
  | nil => intro _; rfl
  | cons c t ih =>
    intro h
    rw [List.takeWhile_cons, h c (List.mem_cons_self c t)]
    simp [ih (fun x hx => h x (List.mem_cons_of_mem c hx))]

lemma takeWhile_all_append {p : Char → Bool} : ∀ (a b : Str), (∀ x ∈ a, p x = true) →
    (a ++ b).takeWhile p = a ++ b.takeWhile p := by
  intro a
  induction a with
  | nil => intro b _; rfl
  | cons c t ih =>
    intro b h
    rw [List.cons_append, List.takeWhile_cons, h c (List.mem_cons_self c t)]
    simp [ih b (fun x hx => h x (List.mem_cons_of_mem c hx))]

lemma begins_head_no (a rest : Str) (c : Char) (p : Str) (h : ∀ x ∈ a, x ≠ c) :
    ∀ j, j < a.length → begins ((a ++ rest).drop j) (c :: p) = false := by
  intro j hj
  rw [List.drop_append_of_le_length (Nat.le_of_lt hj),
      List.drop_eq_getElem_cons hj]
  have hx : a[j] ≠ c := h a[j] (a.getElem_mem hj)
  have hb : (a[j] == c) = false := by simp [hx]
  simp [begins, hb]

lemma pyReplaceAux_no_occ (p new : Str) : ∀ (fuel : Nat) (b : Str),
    (∀ j, begins (b.drop j) p = false) → pyReplaceAux p new fuel b = b := by
  intro fuel
  induction fuel with
  | zero => intro b _; rfl
  | succ f ih =>
    intro b h
    cases b with
    | nil => rfl
    | cons c t =>
      have h0 := h 0
      simp at h0
      simp [pyReplaceAux, h0]
      exact ih t (fun j => h (j + 1))

lemma pyReplaceAux_single (p new : Str) (hp : p ≠ []) : ∀ (a : Str) (fuel : Nat) (b : Str),
    (a ++ (p ++ b)).length ≤ fuel →
    (∀ j, j < a.length → begins ((a ++ (p ++ b)).drop j) p = false) →
    (∀ j, begins (b.drop j) p = false) →
    pyReplaceAux p new fuel (a ++ (p ++ b)) = a ++ (new ++ b) := by
  intro a
  induction a with
  | nil =>
    intro fuel b hfuel h1 h2
    cases p with
    | nil => exact absurd rfl hp
    | cons c p0 =>
      cases fuel with
      | zero => simp at hfuel
      | succ f =>
        have hbeg : begins ((c :: p0) ++ b) (c :: p0) = true := begins_append_self _ _
        simp only [List.nil_append]
        rw [List.cons_append]
        simp only [pyReplaceAux]
        rw [List.cons_append] at hbeg
        rw [hbeg]
        simp only [List.length_cons, Nat.add_sub_cancel]
        have hdrop : (p0 ++ b).drop p0.length = b := List.drop_left p0 b
        rw [hdrop, pyReplaceAux_no_occ (c :: p0) new f b h2]
        simp
  | cons c a0 ih =>
    intro fuel b hfuel h1 h2
    cases fuel with
    | zero => simp at hfuel
    | succ f =>
      have h0 := h1 0 (by simp)
      simp at h0
      rw [List.cons_append]
      simp only [pyReplaceAux]
      rw [h0]
      simp only [List.cons_append, List.length_cons] at hfuel
      have hrec := ih f b (by omega)
        (fun j hj => h1 (j + 1) (by simpa using Nat.succ_lt_succ hj))
        h2
      rw [hrec]
      simp

lemma pyReplace_single (a b p new : Str) (hp : p ≠ [])
    (h1 : ∀ j, j < a.length → begins ((a ++ (p ++ b)).drop j) p = false)
    (h2 : ∀ j, begins (b.drop j) p = false) :
    pyReplace (a ++ (p ++ b)) p new = a ++ (new ++ b) := by
  unfold pyReplace
  rw [if_neg (by simp [hp])]
  exact pyReplaceAux_single p new hp a (a ++ (p ++ b)).length b (Nat.le_refl _) h1 h2

lemma urlPath_split (g rest : Str)
    (hg : ∀ x ∈ g, x ≠ '/' ∧ x ≠ '?' ∧ x ≠ '#') :
    urlPath (S "grpc://" ++ (g ++ (S "/" ++ rest)))
      = ((S "/" ++ rest).takeWhile (fun c => !(c == '#'))).takeWhile (fun c => !(c == '?')) := by
  unfold urlPath
  have hfind : pyFindAux (S "grpc://" ++ (g ++ (S "/" ++ rest))) (S ":") = some 4 := rfl
  rw [hfind]
  dsimp only
  have htake : (S "grpc://" ++ (g ++ (S "/" ++ rest))).take 4 = S "grpc" := rfl
  have hdrop : (S "grpc://" ++ (g ++ (S "/" ++ rest))).drop (4 + 1) = S "//" ++ (g ++ (S "/" ++ rest)) := rfl
  rw [htake, hdrop]
  have hsch : (decide (0 < 4) && schemeChars (S "grpc")) = true := by decide
  rw [if_pos hsch]
  rw [if_pos (begins_append_self (S "//") (g ++ (S "/" ++ rest)))]
  have hdrop2 : (S "//" ++ (g ++ (S "/" ++ rest))).drop 2 = g ++ (S "/" ++ rest) := rfl
  rw [hdrop2]
  have hgall : ∀ x ∈ g, (!(x == '/' || x == '?' || x == '#')) = true := by
    intro x hx
    rcases hg x hx with ⟨h1, h2, h3⟩
    simp [h1, h2, h3]
  have hnet : (g ++ (S "/" ++ rest)).takeWhile (fun c => !(c == '/' || c == '?' || c == '#')) = g := by
    rw [takeWhile_all_append g _ hgall]
    have hcons : (S "/" ++ rest) = '/' :: rest := rfl
    rw [hcons, List.takeWhile_cons]
    simp
  rw [hnet, List.drop_left]

lemma dispatchCb_first (tg u : Str) : ∀ (pre : List (Str × (Nat × Nat))) (k : Str)
    (v : Nat × Nat) (post : List (Str × (Nat × Nat))),
    (∀ x ∈ pre, begins tg x.1 = false) → begins tg k = true →
    dispatchCb tg u (pre ++ (k, v) :: post) = some (v.2, u) := by
  intro pre
  induction pre with
  | nil =>
    intro k v post _ hk
    simp [dispatchCb, hk]
  | cons f t ih =>
    intro k v post hpre hk
    rcases f with ⟨fk, fv⟩
    have hf : begins tg fk = false := hpre (fk, fv) (List.mem_cons_self _ _)
    simp [dispatchCb, hf]
    exact ih k v post (fun x hx => hpre x (List.mem_cons_of_mem _ hx)) hk

lemma dispatchCb_none (tg u : Str) : ∀ (l : List (Str × (Nat × Nat))),
    (∀ x ∈ l, begins tg x.1 = false) → dispatchCb tg u l = none := by
  intro l
  induction l with
  | nil => intro _; rfl
  | cons f t ih =>
    intro h
    rcases f with ⟨fk, fv⟩
    have hf : begins tg fk = false := h (fk, fv) (List.mem_cons_self _ _)
    simp [dispatchCb, hf]
    exact ih (fun x hx => h x (List.mem_cons_of_mem _ hx))

lemma begins_no_mid (B0 t2 rest0 p0 : Str)
    (hB0 : ∀ x ∈ B0, x ≠ '?') (ht2 : ∀ x ∈ t2, x ≠ '?')
    (hT2 : begins (t2 ++ rest0) p0 = false) :
    ∀ j, j < (B0 ++ (S "?" ++ (t2 ++ rest0))).length - rest0.length →
      begins ((B0 ++ (S "?" ++ (t2 ++ rest0))).drop j) ('?' :: p0) = false := by
  intro j hj
  have hlen : (B0 ++ (S "?" ++ (t2 ++ rest0))).length = B0.length + (1 + (t2.length + rest0.length)) := by
    simp [List.length_append, show (S "?").length = 1 from rfl]
  rw [hlen] at hj
  by_cases hc1 : j < B0.length
  · exact begins_head_no B0 _ '?' p0 hB0 j hc1
  · have hk : ∃ k, j = B0.length + k := ⟨j - B0.length, by omega⟩
    rcases hk with ⟨k, rfl⟩
    rw [List.drop_append k]
    cases k with
    | zero =>
      have : (S "?" ++ (t2 ++ rest0)).drop 0 = '?' :: (t2 ++ rest0) := rfl
      rw [this]
      simp [begins, hT2]
    | succ k0 =>
      have : (S "?" ++ (t2 ++ rest0)).drop (k0 + 1) = (t2 ++ rest0).drop k0 := rfl
      rw [this]
      have hk0 : k0 < t2.length := by omega
      exact begins_head_no t2 rest0 '?' p0 ht2 k0 hk0

lemma tag_extract (g t r2 : Str)
    (hg : ∀ x ∈ g, x ≠ '/' ∧ x ≠ '?' ∧ x ≠ '#')
    (ht : ∀ x ∈ t, x ≠ '?' ∧ x ≠ '#')
    (hr2 : ∀ x ∈ r2, x ≠ '#') :
    (urlPath (S "grpc://" ++ (g ++ (S "/" ++ (t ++ ('?' :: r2)))))).drop 1 = t := by
  rw [urlPath_split g _ hg]
  have hall : ∀ x ∈ S "/" ++ (t ++ ('?' :: r2)), (!(x == '#')) = true := by
    intro x hx
    rcases List.mem_append.mp hx with h | h
    · have hx1 : x = '/' := by simpa [S] using h
      rw [hx1]; decide
    rcases List.mem_append.mp h with h | h
    · simp [(ht x h).2]
    rcases List.mem_cons.mp h with h | h
    · rw [h]; decide
    · simp [hr2 x h]
  rw [takeWhile_all _ hall]
  have hcons : S "/" ++ (t ++ ('?' :: r2)) = '/' :: (t ++ ('?' :: r2)) := rfl
  rw [hcons, List.takeWhile_cons]
  have hslash : ((fun c => !(c == '?')) '/') = true := rfl
  rw [if_pos hslash]
  have htall : ∀ x ∈ t, ((fun c => !(c == '?')) x) = true := by
    intro x hx
    simp [(ht x hx).1]
  rw [takeWhile_all_append t _ htall, List.takeWhile_cons]
  rw [if_neg (by decide)]
  simp

/-- C8: dispatch parsing and matching in Session._event_callback.  For a
URL whose caller tag contains no embedded query, the first question mark
is the one of the stream-appended enum suffix, no rewrite happens, and the
fired tag is the path component; for a URL whose caller tag carries an
embedded query, the stream-appended suffix is rewritten from question mark
to ampersand before parsing and the fired tag is the caller tag up to its
own query.  In both cases the first registration whose short tag begins
the fired tag is invoked exactly once with the full (possibly rewritten)
URL, and a URL matching no registered short tag invokes nothing. -/
theorem event_dispatch_parsing (cbs : List (Str × (Nat × Nat))) (g tag q t1 t2 : Str)
    (hg : ∀ x ∈ g, x ≠ '/' ∧ x ≠ '?' ∧ x ≠ '#')
    (htag : ∀ x ∈ tag, x ≠ '?' ∧ x ≠ '#')
    (hq : ∀ x ∈ q, x ≠ '#')
    (ht1 : ∀ x ∈ t1, x ≠ '?' ∧ x ≠ '#')
    (ht2 : ∀ x ∈ t2, x ≠ '?' ∧ x ≠ '#')
    (hT2 : begins (t2 ++ (S "?enum=" ++ q)) (S "enum=") = false)
    (hqE : ∀ j, begins (q.drop j) (S "?enum=") = false) :
    (event_callback cbs (S "grpc://" ++ (g ++ (S "/" ++ (tag ++ (S "?enum=" ++ q)))))
        = dispatchCb tag (S "grpc://" ++ (g ++ (S "/" ++ (tag ++ (S "?enum=" ++ q))))) cbs)
    ∧ (event_callback cbs (S "grpc://" ++ (g ++ (S "/" ++ (t1 ++ (S "?" ++ (t2 ++ (S "?enum=" ++ q)))))))
        = dispatchCb t1 (S "grpc://" ++ (g ++ (S "/" ++ (t1 ++ (S "?" ++ (t2 ++ (S "&enum=" ++ q))))))) cbs)
    ∧ (∀ (tg u : Str) (pre : List (Str × (Nat × Nat))) (k : Str) (v : Nat × Nat)
          (post : List (Str × (Nat × Nat))),
        (∀ x ∈ pre, begins tg x.1 = false) → begins tg k = true →
        dispatchCb tg u (pre ++ (k, v) :: post) = some (v.2, u))
    ∧ (∀ (tg u : Str) (l : List (Str × (Nat × Nat))),
        (∀ x ∈ l, begins tg x.1 = false) → dispatchCb tg u l = none) := by
  have hgq : ∀ x ∈ S "grpc://", x ≠ '?' := by decide
  have hsl : ∀ x ∈ S "/", x ≠ '?' := by decide
  refine ⟨?_, ?_, dispatchCb_first, dispatchCb_none⟩
  · -- case A: no embedded query in the tag
    have hallA0 : ∀ x ∈ S "grpc://" ++ (g ++ (S "/" ++ tag)), x ≠ '?' := by
      intro x hx
      rcases List.mem_append.mp hx with h | h
      · exact hgq x h
      rcases List.mem_append.mp h with h | h
      · exact (hg x h).2.1
      rcases List.mem_append.mp h with h | h
      · exact hsl x h
      · exact (htag x h).1
    have hsplitQ : S "grpc://" ++ (g ++ (S "/" ++ (tag ++ (S "?enum=" ++ q))))
        = (S "grpc://" ++ (g ++ (S "/" ++ tag))) ++ (S "?enum=" ++ q) := by
      simp [List.append_assoc]
    have hQ : pyFindAux (S "grpc://" ++ (g ++ (S "/" ++ (tag ++ (S "?enum=" ++ q))))) (S "?")
        = some (S "grpc://" ++ (g ++ (S "/" ++ tag))).length := by
      rw [hsplitQ]
      have e : S "?enum=" ++ q = S "?" ++ (S "enum=" ++ q) := rfl
      rw [e]
      exact pyFindAux_self_shift _ (S "?") _
        (by
          rw [← e]
          exact begins_head_no _ _ '?' [] hallA0)
    have hE : pyFindAux (S "grpc://" ++ (g ++ (S "/" ++ (tag ++ (S "?enum=" ++ q))))) (S "?enum=")
        = some (S "grpc://" ++ (g ++ (S "/" ++ tag))).length := by
      rw [hsplitQ]
      exact pyFindAux_self_shift _ (S "?enum=") _
        (begins_head_no _ _ '?' (S "enum=") hallA0)
    unfold event_callback pyFind
    rw [hQ, hE]
    dsimp only
    rw [if_neg (lt_irrefl _)]
    have huA : S "grpc://" ++ (g ++ (S "/" ++ (tag ++ (S "?enum=" ++ q))))
        = S "grpc://" ++ (g ++ (S "/" ++ (tag ++ ('?' :: (S "enum=" ++ q))))) := rfl
    rw [huA, tag_extract g tag (S "enum=" ++ q) hg htag
      (by
        intro x hx
        rcases List.mem_append.mp hx with h | h
        · intro he; rw [he] at h; exact absurd h (by decide)
        · exact hq x h)]
  · -- case B: embedded query in the tag
    have hallB0 : ∀ x ∈ S "grpc://" ++ (g ++ (S "/" ++ t1)), x ≠ '?' := by
      intro x hx
      rcases List.mem_append.mp hx with h | h
      · exact hgq x h
      rcases List.mem_append.mp h with h | h
      · exact (hg x h).2.1
      rcases List.mem_append.mp h with h | h
      · exact hsl x h
      · exact (ht1 x h).1
    have hsplitB : S "grpc://" ++ (g ++ (S "/" ++ (t1 ++ (S "?" ++ (t2 ++ (S "?enum=" ++ q))))))
        = (S "grpc://" ++ (g ++ (S "/" ++ t1))) ++ (S "?" ++ (t2 ++ (S "?enum=" ++ q))) := by
      simp [List.append_assoc]
    have hQ : pyFindAux (S "grpc://" ++ (g ++ (S "/" ++ (t1 ++ (S "?" ++ (t2 ++ (S "?enum=" ++ q))))))) (S "?")
        = some (S "grpc://" ++ (g ++ (S "/" ++ t1))).length := by
      rw [hsplitB]
      exact pyFindAux_self_shift _ (S "?") _
        (begins_head_no _ _ '?' [] hallB0)
    have hsplitE : S "grpc://" ++ (g ++ (S "/" ++ (t1 ++ (S "?" ++ (t2 ++ (S "?enum=" ++ q))))))
        = (S "grpc://" ++ (g ++ (S "/" ++ (t1 ++ (S "?" ++ t2))))) ++ (S "?enum=" ++ q) := by
      simp [List.append_assoc]
    have hminE : ∀ j, j < (S "grpc://" ++ (g ++ (S "/" ++ (t1 ++ (S "?" ++ t2))))).length →
        begins (((S "grpc://" ++ (g ++ (S "/" ++ (t1 ++ (S "?" ++ t2))))) ++ (S "?enum=" ++ q)).drop j)
          (S "?enum=") = false := by
      have hFeq : (S "grpc://" ++ (g ++ (S "/" ++ (t1 ++ (S "?" ++ t2))))) ++ (S "?enum=" ++ q)
          = (S "grpc://" ++ (g ++ (S "/" ++ t1))) ++ (S "?" ++ (t2 ++ (S "?enum=" ++ q))) := by
        simp [List.append_assoc]
      have hlb : (S "grpc://" ++ (g ++ (S "/" ++ (t1 ++ (S "?" ++ t2))))).length
          = ((S "grpc://" ++ (g ++ (S "/" ++ t1))) ++ (S "?" ++ (t2 ++ (S "?enum=" ++ q)))).length
              - (S "?enum=" ++ q).length := by
        simp [List.length_append, show (S "?").length = 1 from rfl,
          show (S "?enum=").length = 6 from rfl]
        omega
      intro j hj
      rw [hFeq]
      apply begins_no_mid _ _ _ _ hallB0 (fun x hx => (ht2 x hx).1) hT2
      omega
    have hE : pyFindAux (S "grpc://" ++ (g ++ (S "/" ++ (t1 ++ (S "?" ++ (t2 ++ (S "?enum=" ++ q))))))) (S "?enum=")
        = some (S "grpc://" ++ (g ++ (S "/" ++ (t1 ++ (S "?" ++ t2))))).length := by
      rw [hsplitE]
      exact pyFindAux_self_shift _ (S "?enum=") _ hminE
    have hrepl : pyReplace (S "grpc://" ++ (g ++ (S "/" ++ (t1 ++ (S "?" ++ (t2 ++ (S "?enum=" ++ q)))))))
        (S "?enum=") (S "&enum=")
        = (S "grpc://" ++ (g ++ (S "/" ++ (t1 ++ (S "?" ++ t2))))) ++ (S "&enum=" ++ q) := by
      rw [hsplitE]
      exact pyReplace_single _ q (S "?enum=") (S "&enum=") (by decide) hminE hqE
    have hlt : (S "grpc://" ++ (g ++ (S "/" ++ t1))).length
        < (S "grpc://" ++ (g ++ (S "/" ++ (t1 ++ (S "?" ++ t2))))).length := by
      simp [List.length_append, show (S "?").length = 1 from rfl]
    unfold event_callback pyFind
    rw [hQ, hE]
    dsimp only
    rw [if_pos (by exact_mod_cast hlt)]
    rw [hrepl]
    have hform : (S "grpc://" ++ (g ++ (S "/" ++ (t1 ++ (S "?" ++ t2))))) ++ (S "&enum=" ++ q)
        = S "grpc://" ++ (g ++ (S "/" ++ (t1 ++ ('?' :: (t2 ++ (S "&enum=" ++ q)))))) := by
      have e0 : S "?" ++ (t2 ++ (S "&enum=" ++ q)) = '?' :: (t2 ++ (S "&enum=" ++ q)) := rfl
      rw [← e0]
      simp [List.append_assoc]
    rw [hform, tag_extract g t1 (t2 ++ (S "&enum=" ++ q)) hg ht1
      (by
        intro x hx
        rcases List.mem_append.mp hx with h | h
        · exact (ht2 x h).2
        rcases List.mem_append.mp h with h | h
        · intro he; rw [he] at h; exact absurd h (by decide)
        · exact hq x h)]
    have hback : S "grpc://" ++ (g ++ (S "/" ++ (t1 ++ ('?' :: (t2 ++ (S "&enum=" ++ q))))))
        = S "grpc://" ++ (g ++ (S "/" ++ (t1 ++ (S "?" ++ (t2 ++ (S "&enum=" ++ q)))))) := rfl
    rw [hback]

lemma begins_drop_of_le (q p : Str) (hp : p ≠ [])
    (h : ∀ j, j < q.length → begins (q.drop j) p = false) :
    ∀ j, begins (q.drop j) p = false := by
  intro j
  by_cases hj : j < q.length
  · exact h j hj
  · have hnil : q.drop j = [] := List.drop_eq_nil_of_le (by omega)
    rw [hnil]
    cases p with
    | nil => exact absurd rfl hp
    | cons c p0 => rfl

/-- Witness for event_dispatch_parsing on a concrete registry and a
concrete notification URL whose tag carries an embedded query. -/
theorem event_dispatch_parsing_witness :
    (∀ x ∈ S "abc-1", x ≠ '/' ∧ x ≠ '?' ∧ x ≠ '#')
    ∧ event_callback [(S "bar", (9, 9)), (S "vport", (1, 7))]
        (S "grpc://" ++ (S "abc-1" ++ (S "/" ++ (S "vport" ++ (S "?" ++ (S "w=5" ++ (S "?enum=" ++ S "WIDTH&uid=2")))))))
        = dispatchCb (S "vport")
            (S "grpc://" ++ (S "abc-1" ++ (S "/" ++ (S "vport" ++ (S "?" ++ (S "w=5" ++ (S "&enum=" ++ S "WIDTH&uid=2")))))))
            [(S "bar", (9, 9)), (S "vport", (1, 7))] :=
  ⟨by decide,
   (event_dispatch_parsing [(S "bar", (9, 9)), (S "vport", (1, 7))] (S "abc-1") (S "partlist")
     (S "WIDTH&uid=2") (S "vport") (S "w=5")
     (by decide) (by decide) (by decide) (by decide) (by decide) (by decide)
     (begins_drop_of_le (S "WIDTH&uid=2") (S "?enum=") (by decide) (by decide))).2.1⟩
